import Mathlib

/-!
# Flincap Go SDK: a shallow embedding of `main.go`

The client builds a request, attaches headers, performs one HTTP round trip
and decodes a JSON body.  Everything the client calls in the Go standard
library (`net/http`, `encoding/json`) is outside the repository, so those
calls are parameters of the model (`Stdlib`, `http.Client`): every general
theorem holds for all possible behaviours of the library and of the network.
Statements about the text of a body are evaluated with a model of the decoder
of `encoding/json` (`json.DecodeMap`).

Conventions.

* Go strings and byte slices are Lean `String`s (texts that are valid UTF-8).
* `fmt.Sprintf` with `%s` verbs and string arguments is string concatenation.
* A Go `error` is a `GoError`; a nilable `error` is `Option GoError`.
* A nilable `map[string]interface{}` is `Option JsonMap`, `none` being `nil`.
* Each operation returns, besides its Go results, the list of library calls
  it made in program order (`Event`), so that "which request was issued" and
  "was the body read" are observable.
-/

namespace Flincap

/-! ## Errors (`error`, `fmt.Errorf`) -/

/-- Go error values that can reach a caller of the client. -/
inductive GoError where
  /-- An error value produced inside the standard library. -/
  | lib (msg : String)
  /-- The result of `fmt.Errorf` with no `%w` verb: a plain message. -/
  | errorString (s : String)
  /-- The result of `fmt.Errorf` with one `%w` verb: a message and a cause. -/
  | wrapError (msg : String) (err : GoError)
  deriving DecidableEq, Repr

/-- The method `Error()` of a Go error. -/
def GoError.Error : GoError → String
  | .lib msg => msg
  | .errorString s => s
  | .wrapError msg _ => msg

/-- The method `Unwrap()` as seen by `errors.Unwrap`. -/
def GoError.Unwrap : GoError → Option GoError
  | .wrapError _ err => some err
  | _ => none

/-- The call `fmt.Errorf(pre + "%w", err)` for a non-nil `err`. -/
def Errorf (pre : String) (err : GoError) : GoError :=
  .wrapError (pre ++ err.Error) err

/-! ## JSON values (`map[string]interface{}`) -/

/-- Dynamic values held by an `interface{}`: those a JSON document decodes to.
Numbers are kept as their literal text; the client never inspects values, and
whether a payload can be serialized is decided by `Stdlib.jsonMarshal`. -/
inductive Value where
  | null
  | bool (b : Bool)
  | number (literal : String)
  | str (s : String)
  | array (xs : List Value)
  | object (kvs : List (String × Value))

/-- The Go type `map[string]interface{}` (non-nil values of it). -/
abbrev JsonMap := List (String × Value)

/-! ## `net/http` -/

namespace http

/-- The Go type `http.Header`: header name to its list of values. -/
abbrev Header := String → Option (List String)

/-- The header of a request fresh from `http.NewRequest`. -/
def Header.empty : Header := fun _ => none

/-- The method `Header.Set`: the key now holds exactly the one value.  Both
keys the client uses are literals already in canonical MIME form, on which the
canonicalisation done by `net/http` is the identity. -/
def Header.Set (h : Header) (key value : String) : Header :=
  fun k => if k = key then some [value] else h k

/-- The parts of `http.Request` the client touches.  `URL` is the string the
request was built from; `Body` is `none` for a nil body. -/
structure Request where
  Method : String
  URL : String
  Body : Option String
  Header : Header

/-- The parts of `http.Response` the client touches. -/
structure Response where
  StatusCode : Int
  Body : String
  deriving DecidableEq, Repr

/-- The transport: `(*http.Client).Do`. -/
structure Client where
  Do : Request → Except GoError Response

/-- The constant `http.StatusOK`. -/
def StatusOK : Int := 200

end http

/-- The standard-library functions the client calls. -/
structure Stdlib where
  /-- The error of `http.NewRequest(method, url, body)`, `none` when the
  method and URL are accepted. -/
  newRequestErr : String → String → Option GoError
  /-- The function `json.Marshal` on a transaction payload (`none` is a nil map). -/
  jsonMarshal : Option JsonMap → Except GoError String
  /-- The call `json.NewDecoder(body).Decode(&errResp)` on a zero `errResp`:
  the fields `(Message, Code)` afterwards, and the error. -/
  decodeErrResp : String → (String × String) × Option GoError
  /-- The call `json.NewDecoder(body).Decode(&data)` on a nil `data`: the
  variable afterwards, and the error. -/
  decodeMap : String → Option JsonMap × Option GoError

/-- Library calls made by an operation. -/
inductive Event where
  /-- A call of `http.NewRequest`. -/
  | newRequest (method url : String) (body : Option String)
  /-- A call of `c.HTTPClient.Do`. -/
  | send (req : http.Request)
  /-- A call of `json.NewDecoder(body).Decode`. -/
  | decode (body : String)

/-- The function `http.NewRequest`. -/
def Stdlib.NewRequest (std : Stdlib) (method url : String) (body : Option String) :
    Except GoError http.Request :=
  match std.newRequestErr method url with
  | some err => .error err
  | none => .ok { Method := method, URL := url, Body := body, Header := http.Header.empty }

/-! ## The client -/

/-- The constant `defaultBaseURL`. -/
def defaultBaseURL : String := "https://flincap.app"

/-- The struct `FlincapClient`. -/
structure FlincapClient where
  BaseURL : String
  HTTPClient : http.Client
  Token : String

/-- The constructor `NewFlincapClient`; `dflt` stands for `&http.Client{}`. -/
def NewFlincapClient (dflt : http.Client) (token : String) : FlincapClient :=
  { BaseURL := defaultBaseURL, HTTPClient := dflt, Token := token }

/-- The method `setHeaders`. -/
def FlincapClient.setHeaders (c : FlincapClient) (req : http.Request) : http.Request :=
  let req := { req with Header := req.Header.Set "Content-Type" "application/json" }
  if c.Token ≠ "" then
    { req with Header := req.Header.Set "Authorization" ("Bearer " ++ c.Token) }
  else
    req

/-- The method `handleError`: the calls made and the error returned. -/
def FlincapClient.handleError (_c : FlincapClient) (std : Stdlib) (resp : http.Response) :
    List Event × GoError :=
  let (errResp, err) := std.decodeErrResp resp.Body
  match err with
  | some err => ([.decode resp.Body], Errorf "failed to decode error response: " err)
  | none =>
    ([.decode resp.Body],
      .errorString ("API error: " ++ errResp.1 ++ " (code: " ++ errResp.2 ++ ")"))

/-- Results of an operation returning `(map[string]interface{}, error)`. -/
structure Ret where
  trace : List Event
  data : Option JsonMap
  err : Option GoError

/-- The method `GetRate`. -/
def FlincapClient.GetRate (c : FlincapClient) (std : Stdlib)
    (selectedCrypt selectedFiat : String) : Ret :=
  let url := c.BaseURL ++ "/v1/get-rate"
  let params := "?selectedCrypt=" ++ selectedCrypt ++ "&selectedFiat=" ++ selectedFiat
  match std.NewRequest "GET" (url ++ params) none with
  | .error err =>
    ⟨[.newRequest "GET" (url ++ params) none], none, some (Errorf "failed to create request: " err)⟩
  | .ok req =>
    let req := c.setHeaders req
    match c.HTTPClient.Do req with
    | .error err =>
      ⟨[.newRequest "GET" (url ++ params) none, .send req], none,
        some (Errorf "failed to send request: " err)⟩
    | .ok resp =>
      if resp.StatusCode ≠ http.StatusOK then
        let (evs, e) := c.handleError std resp
        ⟨[.newRequest "GET" (url ++ params) none, .send req] ++ evs, none, some e⟩
      else
        let (data, err) := std.decodeMap resp.Body
        match err with
        | some err =>
          ⟨[.newRequest "GET" (url ++ params) none, .send req, .decode resp.Body], none,
            some (Errorf "failed to decode response data: " err)⟩
        | none =>
          ⟨[.newRequest "GET" (url ++ params) none, .send req, .decode resp.Body], data, none⟩

/-- The method `GetExchange`. -/
def FlincapClient.GetExchange (c : FlincapClient) (std : Stdlib) : Ret :=
  let url := c.BaseURL ++ "/v1/get-exchange"
  match std.NewRequest "GET" url none with
  | .error err =>
    ⟨[.newRequest "GET" url none], none, some (Errorf "failed to create request: " err)⟩
  | .ok req =>
    let req := c.setHeaders req
    match c.HTTPClient.Do req with
    | .error err =>
      ⟨[.newRequest "GET" url none, .send req], none,
        some (Errorf "failed to send request: " err)⟩
    | .ok resp =>
      if resp.StatusCode ≠ http.StatusOK then
        let (evs, e) := c.handleError std resp
        ⟨[.newRequest "GET" url none, .send req] ++ evs, none, some e⟩
      else
        let (data, err) := std.decodeMap resp.Body
        match err with
        | some err =>
          ⟨[.newRequest "GET" url none, .send req, .decode resp.Body], none,
            some (Errorf "failed to decode response data: " err)⟩
        | none =>
          ⟨[.newRequest "GET" url none, .send req, .decode resp.Body], data, none⟩

/-- The method `CreateTransaction`: the calls made and the error returned. -/
def FlincapClient.CreateTransaction (c : FlincapClient) (std : Stdlib)
    (transactionData : Option JsonMap) : List Event × Option GoError :=
  let url := c.BaseURL ++ "/v1/create-transaction"
  match std.jsonMarshal transactionData with
  | .error err => ([], some (Errorf "failed to marshal payload: " err))
  | .ok payload =>
    match std.NewRequest "POST" url (some payload) with
    | .error err =>
      ([.newRequest "POST" url (some payload)], some (Errorf "failed to create request: " err))
    | .ok req =>
      let req := c.setHeaders req
      match c.HTTPClient.Do req with
      | .error err =>
        ([.newRequest "POST" url (some payload), .send req],
          some (Errorf "failed to send request: " err))
      | .ok resp =>
        if resp.StatusCode ≠ http.StatusOK then
          let (evs, e) := c.handleError std resp
          ([.newRequest "POST" url (some payload), .send req] ++ evs, some e)
        else
          ([.newRequest "POST" url (some payload), .send req], none)

/-- The method `GetTransaction`. -/
def FlincapClient.GetTransaction (c : FlincapClient) (std : Stdlib)
    (transactionID : String) : Ret :=
  let url := c.BaseURL ++ ("/v1/get-transactions/" ++ transactionID)
  match std.NewRequest "GET" url none with
  | .error err =>
    ⟨[.newRequest "GET" url none], none, some (Errorf "failed to create request: " err)⟩
  | .ok req =>
    let req := c.setHeaders req
    match c.HTTPClient.Do req with
    | .error err =>
      ⟨[.newRequest "GET" url none, .send req], none,
        some (Errorf "failed to send request: " err)⟩
    | .ok resp =>
      if resp.StatusCode ≠ http.StatusOK then
        let (evs, e) := c.handleError std resp
        ⟨[.newRequest "GET" url none, .send req] ++ evs, none, some e⟩
      else
        let (data, err) := std.decodeMap resp.Body
        match err with
        | some err =>
          ⟨[.newRequest "GET" url none, .send req, .decode resp.Body], none,
            some (Errorf "failed to decode response data: " err)⟩
        | none =>
          ⟨[.newRequest "GET" url none, .send req, .decode resp.Body], data, none⟩

/-- The method `GetTransactionHistory`. -/
def FlincapClient.GetTransactionHistory (c : FlincapClient) (std : Stdlib)
    (transactionType selectedFiat : String) : Ret :=
  let url := c.BaseURL ++ "/api/v1/get-transactions"
  let params := "?transactionType=" ++ transactionType ++ "&selectedFiat=" ++ selectedFiat
  match std.NewRequest "GET" (url ++ params) none with
  | .error err =>
    ⟨[.newRequest "GET" (url ++ params) none], none, some (Errorf "failed to create request: " err)⟩
  | .ok req =>
    let req := c.setHeaders req
    match c.HTTPClient.Do req with
    | .error err =>
      ⟨[.newRequest "GET" (url ++ params) none, .send req], none,
        some (Errorf "failed to send request: " err)⟩
    | .ok resp =>
      if resp.StatusCode ≠ http.StatusOK then
        let (evs, e) := c.handleError std resp
        ⟨[.newRequest "GET" (url ++ params) none, .send req] ++ evs, none, some e⟩
      else
        let (data, err) := std.decodeMap resp.Body
        match err with
        | some err =>
          ⟨[.newRequest "GET" (url ++ params) none, .send req, .decode resp.Body], none,
            some (Errorf "failed to decode response data: " err)⟩
        | none =>
          ⟨[.newRequest "GET" (url ++ params) none, .send req, .decode resp.Body], data, none⟩

/-! ## Observing a run -/

/-- The method and URL an event carries, if it is about a request. -/
def Event.target : Event → Option (String × String)
  | .newRequest method url _ => some (method, url)
  | .send req => some (req.Method, req.URL)
  | .decode _ => none

/-- Method and URL of every request built or sent during a run, in order. -/
def targets (trace : List Event) : List (String × String) :=
  trace.filterMap Event.target

/-- During the run a request was sent and the transport answered it with `resp`. -/
def Received (c : FlincapClient) (trace : List Event) (resp : http.Response) : Prop :=
  ∃ req, Event.send req ∈ trace ∧ c.HTTPClient.Do req = .ok resp

/-- During the run a request was sent and the transport failed with `e`. -/
def TransportFailed (c : FlincapClient) (trace : List Event) (e : GoError) : Prop :=
  ∃ req, Event.send req ∈ trace ∧ c.HTTPClient.Do req = .error e

/-- Every request built or sent during the run, and there is at least one,
has the given method and URL. -/
def Targets (trace : List Event) (method url : String) : Prop :=
  (targets trace).head? = some (method, url) ∧ ∀ p ∈ targets trace, p = (method, url)

/-! ## URL escaping (`net/url`)

The client never calls an escaping function.  `QueryEscape` is what "URL-escaped"
means for a query parameter, so that the specification's sentence about escaped
parameters can be stated. -/

/-- The characters `url.QueryEscape` leaves alone: ASCII letters and digits and
the marks `-`, `_`, `.`, `~`. -/
def unreserved (ch : Char) : Bool :=
  (97 ≤ ch.toNat && ch.toNat ≤ 122) || (65 ≤ ch.toNat && ch.toNat ≤ 90) ||
    (48 ≤ ch.toNat && ch.toNat ≤ 57) || ch = '-' || ch = '_' || ch = '.' || ch = '~'

/-- Upper-case hexadecimal digit of a number below 16. -/
def upperhex (n : Nat) : Char :=
  ['0', '1', '2', '3', '4', '5', '6', '7', '8', '9', 'A', 'B', 'C', 'D', 'E', 'F'].getD n '0'

/-- The bytes of the UTF-8 encoding of a character. -/
def utf8Bytes (ch : Char) : List Nat :=
  let v := ch.toNat
  if v < 128 then [v]
  else if v < 2048 then [192 + v / 64, 128 + v % 64]
  else if v < 65536 then [224 + v / 4096, 128 + v / 64 % 64, 128 + v % 64]
  else [240 + v / 262144, 128 + v / 4096 % 64, 128 + v / 64 % 64, 128 + v % 64]

/-- Percent-encoding of a list of bytes. -/
def percentBytes : List Nat → List Char
  | [] => []
  | b :: bs => '%' :: upperhex (b / 16) :: upperhex (b % 16) :: percentBytes bs

/-- Escaping of one character: kept if unreserved, `+` for a space, otherwise
the percent-encoding of its bytes. -/
def escapeChar (ch : Char) : List Char :=
  if unreserved ch then [ch]
  else if ch = ' ' then ['+']
  else percentBytes (utf8Bytes ch)

/-- Escaping of a list of characters. -/
def escapeChars : List Char → List Char
  | [] => []
  | ch :: cs => escapeChar ch ++ escapeChars cs

/-- The function `url.QueryEscape`. -/
def QueryEscape (s : String) : String :=
  String.mk (escapeChars s.data)

/-! ## `encoding/json`: a model of the decoder

`encoding/json` is not part of the repository.  The theorems about the
operations hold for every decoder (`Stdlib`); this section describes the
decoder Go ships with, so that statements about the text of a body ("is a
JSON object", "is not valid JSON") can be evaluated.  It follows the package's
scanner and `Decoder.Decode` into a `map[string]interface{}`: the grammar of
RFC 8259, a nesting limit of 10000, numbers converted to `float64`, the first
conversion error kept, and only the first value of the stream read.  Malformed
and truncated input give one error value; the text of syntax errors is not
modelled. -/

namespace json

/-- The constant `maxNestingDepth` of the scanner. -/
def maxNestingDepth : Nat := 10000

/-- The error of a malformed or truncated document. -/
def SyntaxError : GoError := .lib "json: syntax error"

/-- The error `io.EOF` of `Decode` on an empty stream. -/
def EOF : GoError := .lib "EOF"

/-- The text of an `UnmarshalTypeError` outside a struct. -/
def UnmarshalTypeError (value type : String) : GoError :=
  .lib ("json: cannot unmarshal " ++ value ++ " into Go value of type " ++ type)

/-- The scanner's `isSpace`: space, tab, carriage return, line feed. -/
def isSpace (c : Char) : Bool :=
  c.toNat = 32 || c.toNat = 9 || c.toNat = 13 || c.toNat = 10

/-- Input with leading white space removed. -/
def skipSpace : List Char → List Char
  | [] => []
  | c :: cs => if isSpace c then skipSpace cs else c :: cs

/-- Decimal digits. -/
def isDigit (c : Char) : Bool := 48 ≤ c.toNat && c.toNat ≤ 57

/-- The longest run of digits at the front, and what follows it. -/
def takeDigits : List Char → List Char × List Char
  | [] => ([], [])
  | c :: cs =>
    if isDigit c then ((c :: (takeDigits cs).1), (takeDigits cs).2) else ([], c :: cs)

/-- The number a list of decimal digits writes. -/
def natOfDigits (ds : List Char) : Nat :=
  ds.foldl (fun n c => 10 * n + (c.toNat - 48)) 0

/-- Powers of ten. -/
def pow10 : Nat → Nat
  | 0 => 1
  | n + 1 => 10 * pow10 n

/-- The least magnitude that `strconv.ParseFloat(s, 64)` rounds to infinity:
`2^1024 - 2^970`, half way between the largest `float64` and `2^1024`. -/
def float64Overflow : Nat :=
  179769313486231580793728971405303415079934132710037826936173778980444968292764750946649017977587207096330286416692887910946555547851940402630657488671505820681908902000708383676273854845817711531764475730270069855571366959622842914819860834936475292719074168444365510704342711559699508093042880177904174497792

/-- A scanned number: its text, the digits of its integer and fraction parts,
the length of the fraction, and its exponent. -/
structure Number where
  literal : List Char
  digits : List Char
  fracLen : Nat
  exp : Int

/-- Whether `strconv.ParseFloat(literal, 64)` succeeds: the magnitude
`digits * 10^(exp - fracLen)` is below `float64Overflow`. -/
def Number.fitsFloat64 (n : Number) : Bool :=
  if n.exp - n.fracLen ≥ 0 then
    decide (natOfDigits n.digits * pow10 (n.exp - n.fracLen).toNat < float64Overflow)
  else
    decide (natOfDigits n.digits < float64Overflow * pow10 (n.fracLen - n.exp).toNat)

/-- The optional exponent of a number. -/
def scanExp (n : Number) (cs : List Char) : Option (Number × List Char) :=
  match cs with
  | [] => some (n, [])
  | c :: r =>
    if c.toNat = 101 || c.toNat = 69 then
      match r with
      | [] => none
      | s :: r1 =>
        if s.toNat = 43 then
          if (takeDigits r1).1 = [] then none
          else some ({ n with literal := n.literal ++ c :: s :: (takeDigits r1).1,
                              exp := (natOfDigits (takeDigits r1).1 : Int) }, (takeDigits r1).2)
        else if s.toNat = 45 then
          if (takeDigits r1).1 = [] then none
          else some ({ n with literal := n.literal ++ c :: s :: (takeDigits r1).1,
                              exp := - (natOfDigits (takeDigits r1).1 : Int) }, (takeDigits r1).2)
        else
          if (takeDigits r).1 = [] then none
          else some ({ n with literal := n.literal ++ c :: (takeDigits r).1,
                              exp := (natOfDigits (takeDigits r).1 : Int) }, (takeDigits r).2)
    else some (n, c :: r)

/-- The optional fraction of a number, then its exponent. -/
def scanFrac (n : Number) (cs : List Char) : Option (Number × List Char) :=
  match cs with
  | [] => some (n, [])
  | c :: r =>
    if c.toNat = 46 then
      if (takeDigits r).1 = [] then none
      else scanExp { n with literal := n.literal ++ c :: (takeDigits r).1,
                            digits := n.digits ++ (takeDigits r).1,
                            fracLen := (takeDigits r).1.length } (takeDigits r).2
    else scanExp n (c :: r)

/-- The integer part of a number after its optional sign (`0`, or a non-zero
digit followed by digits), then the rest. -/
def scanInt (sign : List Char) (cs : List Char) : Option (Number × List Char) :=
  match cs with
  | [] => none
  | c :: r =>
    if c.toNat = 48 then
      scanFrac { literal := sign ++ [c], digits := [c], fracLen := 0, exp := 0 } r
    else if isDigit c then
      scanFrac { literal := sign ++ c :: (takeDigits r).1, digits := c :: (takeDigits r).1,
                 fracLen := 0, exp := 0 } (takeDigits r).2
    else none

/-- A number at the front of the input. -/
def scanNumber (cs : List Char) : Option (Number × List Char) :=
  match cs with
  | [] => none
  | c :: r => if c.toNat = 45 then scanInt [c] r else scanInt [] (c :: r)

/-- The value of a hexadecimal digit. -/
def hexVal (c : Char) : Option Nat :=
  if isDigit c then some (c.toNat - 48)
  else if 97 ≤ c.toNat && c.toNat ≤ 102 then some (c.toNat - 87)
  else if 65 ≤ c.toNat && c.toNat ≤ 70 then some (c.toNat - 55)
  else none

/-- Four hexadecimal digits at the front, as a number. -/
def hex4 : List Char → Option (Nat × List Char)
  | a :: b :: c :: d :: rest =>
    match hexVal a, hexVal b, hexVal c, hexVal d with
    | some x, some y, some z, some w => some (4096 * x + 256 * y + 16 * z + w, rest)
    | _, _, _, _ => none
  | _ => none

/-- The function `getu4`: the code unit of an escape `\uXXXX` at the front. -/
def getu4 : List Char → Option (Nat × List Char)
  | b :: u :: rest => if b.toNat = 92 && u.toNat = 117 then hex4 rest else none
  | _ => none

/-- A string after its opening quote: the text it denotes and what follows the
closing quote.  Escapes are undone as `unquote` does; a surrogate half without
its partner becomes U+FFFD. -/
def scanString : Nat → List Char → Option (List Char × List Char)
  | 0, _ => none
  | _ + 1, [] => none
  | fuel + 1, c :: rest =>
    if c.toNat = 34 then some ([], rest)
    else if c.toNat < 32 then none
    else if c.toNat = 92 then
      match rest with
      | [] => none
      | e :: rest1 =>
        if e.toNat = 117 then
          match hex4 rest1 with
          | none => none
          | some (u, rest2) =>
            if 55296 ≤ u && u < 57344 then
              match getu4 rest2 with
              | some (v, rest3) =>
                if u < 56320 && 56320 ≤ v && v < 57344 then
                  (scanString fuel rest3).map fun p =>
                    (Char.ofNat (65536 + (u - 55296) * 1024 + (v - 56320)) :: p.1, p.2)
                else (scanString fuel rest2).map fun p => (Char.ofNat 65533 :: p.1, p.2)
              | none => (scanString fuel rest2).map fun p => (Char.ofNat 65533 :: p.1, p.2)
            else (scanString fuel rest2).map fun p => (Char.ofNat u :: p.1, p.2)
        else if e.toNat = 34 || e.toNat = 92 || e.toNat = 47 then
          (scanString fuel rest1).map fun p => (e :: p.1, p.2)
        else if e.toNat = 98 then (scanString fuel rest1).map fun p => (Char.ofNat 8 :: p.1, p.2)
        else if e.toNat = 102 then (scanString fuel rest1).map fun p => (Char.ofNat 12 :: p.1, p.2)
        else if e.toNat = 110 then (scanString fuel rest1).map fun p => (Char.ofNat 10 :: p.1, p.2)
        else if e.toNat = 114 then (scanString fuel rest1).map fun p => (Char.ofNat 13 :: p.1, p.2)
        else if e.toNat = 116 then (scanString fuel rest1).map fun p => (Char.ofNat 9 :: p.1, p.2)
        else none
    else (scanString fuel rest).map fun p => (c :: p.1, p.2)

/-- The input after the given word, if the input starts with it. -/
def dropWord : List Char → List Char → Option (List Char)
  | [], cs => some cs
  | _ :: _, [] => none
  | w :: ws, c :: cs => if c = w then dropWord ws cs else none

/-- The map `later` together with an entry written before it: the entry is
kept unless `later` assigns the key again. -/
def putBefore (key : String) (v : Value) (later : JsonMap) : JsonMap :=
  if later.any (fun kv => kv.1 = key) then later else (key, v) :: later

/-- What decoding one value gives: the value, the first conversion error if
any, and the input left. -/
structure Parsed (α : Type) where
  value : α
  err : Option GoError
  rest : List Char

/-- The first of two optional errors (`saveError`). -/
def firstErr : Option GoError → Option GoError → Option GoError
  | some e, _ => some e
  | none, e => e

mutual

/-- One value at the front of the input, `depth` containers being open. -/
def parseValue : Nat → Nat → List Char → Option (Parsed Value)
  | 0, _, _ => none
  | fuel + 1, depth, cs =>
    match skipSpace cs with
    | [] => none
    | c :: rest =>
      if c.toNat = 123 then
        if depth ≥ maxNestingDepth then none
        else
          match skipSpace rest with
          | [] => none
          | d :: rest1 =>
            if d.toNat = 125 then some ⟨.object [], none, rest1⟩
            else
              (parseMembers fuel (depth + 1) (d :: rest1)).map fun p =>
                ⟨.object p.value, p.err, p.rest⟩
      else if c.toNat = 91 then
        if depth ≥ maxNestingDepth then none
        else
          match skipSpace rest with
          | [] => none
          | d :: rest1 =>
            if d.toNat = 93 then some ⟨.array [], none, rest1⟩
            else
              (parseElems fuel (depth + 1) (d :: rest1)).map fun p =>
                ⟨.array p.value, p.err, p.rest⟩
      else if c.toNat = 34 then
        (scanString (rest.length + 1) rest).map fun p => ⟨.str (String.mk p.1), none, p.2⟩
      else if c = 'n' then (dropWord ['u', 'l', 'l'] rest).map fun r => ⟨.null, none, r⟩
      else if c = 't' then (dropWord ['r', 'u', 'e'] rest).map fun r => ⟨.bool true, none, r⟩
      else if c = 'f' then
        (dropWord ['a', 'l', 's', 'e'] rest).map fun r => ⟨.bool false, none, r⟩
      else
        (scanNumber (c :: rest)).map fun p =>
          if p.1.fitsFloat64 then ⟨.number (String.mk p.1.literal), none, p.2⟩
          else
            ⟨.null, some (UnmarshalTypeError ("number " ++ String.mk p.1.literal) "float64"),
              p.2⟩

/-- The elements of an array from its first element to the closing bracket. -/
def parseElems : Nat → Nat → List Char → Option (Parsed (List Value))
  | 0, _, _ => none
  | fuel + 1, depth, cs =>
    match parseValue fuel depth cs with
    | none => none
    | some v =>
      match skipSpace v.rest with
      | [] => none
      | c :: rest =>
        if c.toNat = 44 then
          (parseElems fuel depth rest).map fun p =>
            ⟨v.value :: p.value, firstErr v.err p.err, p.rest⟩
        else if c.toNat = 93 then some ⟨[v.value], v.err, rest⟩
        else none

/-- The members of an object from its first key to the closing brace; a key
that occurs again replaces its earlier value. -/
def parseMembers : Nat → Nat → List Char → Option (Parsed JsonMap)
  | 0, _, _ => none
  | fuel + 1, depth, cs =>
    match skipSpace cs with
    | [] => none
    | q :: rest =>
      if q.toNat = 34 then
        match scanString (rest.length + 1) rest with
        | none => none
        | some key =>
          match skipSpace key.2 with
          | [] => none
          | colon :: rest1 =>
            if colon.toNat = 58 then
              match parseValue fuel depth rest1 with
              | none => none
              | some v =>
                match skipSpace v.rest with
                | [] => none
                | c :: rest2 =>
                  if c.toNat = 44 then
                    (parseMembers fuel depth rest2).map fun p =>
                      ⟨putBefore (String.mk key.1) v.value p.value, firstErr v.err p.err,
                        p.rest⟩
                  else if c.toNat = 125 then
                    some ⟨[(String.mk key.1, v.value)], v.err, rest2⟩
                  else none
            else none
      else none

end

/-- Fuel that suffices for an input: every call consumes a character. -/
def fuelFor (cs : List Char) : Nat := 2 * cs.length + 2

/-- The function `json.Valid`: the whole input is one JSON value, with white
space allowed around it. -/
def Valid (body : String) : Bool :=
  match parseValue (fuelFor body.data) 0 body.data with
  | none => false
  | some p => (skipSpace p.rest).isEmpty

/-- The input is valid JSON and its value is an object. -/
def IsObject (body : String) : Bool :=
  Valid body && ((skipSpace body.data).head?.map Char.toNat = some 123)

/-- The name of the Go type `map[string]interface{}`. -/
def mapType : String := "map[string]interface \x7b\x7d"

/-- The call `json.NewDecoder(r).Decode(&data)` where `r` holds `body` and `data`
is a nil `map[string]interface{}`: `data` afterwards, and the error.  Only the
first value of the stream is read: after an object or an array anything may
follow, after any other value only white space or the end of input. -/
def DecodeMap (body : String) : Option JsonMap × Option GoError :=
  match skipSpace body.data with
  | [] => (none, some EOF)
  | c :: _ =>
    match parseValue (fuelFor body.data) 0 body.data with
    | none => (none, some SyntaxError)
    | some p =>
      if c.toNat = 123 then
        match p.value with
        | .object m => (some m, p.err)
        | _ => (none, some SyntaxError)
      else if c.toNat = 91 then (none, some (UnmarshalTypeError "array" mapType))
      else if (p.rest.head?.map isSpace).getD true = false then (none, some SyntaxError)
      else if c.toNat = 34 then (none, some (UnmarshalTypeError "string" mapType))
      else if c = 'n' then (none, none)
      else if c = 't' || c = 'f' then (none, some (UnmarshalTypeError "bool" mapType))
      else (none, some (UnmarshalTypeError "number" mapType))

end json

/-! ## Example environments -/

/-- A transport that answers every request with the given status and body. -/
def replyWith (status : Int) (body : String) : http.Client :=
  { Do := fun _ => .ok { StatusCode := status, Body := body } }

/-- A transport on which every round trip fails with the given error. -/
def failWith (e : GoError) : http.Client :=
  { Do := fun _ => .error e }

/-- The error body of the specification: an envelope with message `bad input`
and code `E1`. -/
def errorEnvelopeBody : String := "\x7b\"message\":\"bad input\",\"code\":\"E1\"\x7d"

/-- The success body of the specification: a transaction `tx1` with status `ok`. -/
def transactionBody : String := "\x7b\"id\":\"tx1\",\"status\":\"ok\"\x7d"

/-- A small library instance: every request is well formed, response bodies
are decoded into a map as `encoding/json` does (`json.DecodeMap`), and the
serializer and the envelope decoder know one document each. -/
def exampleStd : Stdlib where
  newRequestErr := fun _ _ => none
  jsonMarshal := fun m =>
    match m with
    | some [("amount", .number "10")] => .ok "\x7b\"amount\":10\x7d"
    | _ => .error (.lib "json: unsupported type")
  decodeErrResp := fun body =>
    if body = errorEnvelopeBody then
      (("bad input", "E1"), none)
    else
      (("", ""), some (.lib "invalid character in error body"))
  decodeMap := json.DecodeMap

/-- A request as `http.NewRequest` returns it for `GetExchange`. -/
def exampleRequest : http.Request :=
  { Method := "GET", URL := "https://flincap.app/v1/get-exchange", Body := none,
    Header := http.Header.empty }

/-! ## The generic primitive of the specification

The specification describes one "execute-and-decode" primitive and presents
the five operations as specialisations of it.  The source has no such
function; this section writes it down from the specification's words, to
be compared with the operations transcribed above. -/

/-- Specification, header policy: every outgoing request sets `Content-Type:
application/json`; if a token is present, sets `Authorization: Bearer <token>`. -/
def headerPolicy (token : String) (h : http.Header) : http.Header :=
  let h := h.Set "Content-Type" "application/json"
  if token = "" then h else h.Set "Authorization" ("Bearer " ++ token)

/-- Specification, `ConstructionError`: malformed request construction. -/
def ConstructionError (cause : GoError) : GoError :=
  Errorf "failed to create request: " cause

/-- Specification, `TransportError`: carries the underlying cause. -/
def TransportError (cause : GoError) : GoError :=
  Errorf "failed to send request: " cause

/-- Specification, `APIError`: carries `message` and `code`. -/
def APIError (message code : String) : GoError :=
  .errorString ("API error: " ++ message ++ " (code: " ++ code ++ ")")

/-- Specification, `DecodeError`: wraps the decode failure; `context` is the
message of the place that decoded. -/
def DecodeError (context : String) (cause : GoError) : GoError :=
  Errorf context cause

/-- Specification, generic execute-and-decode contract: construct the
request, apply the header policy, perform the round trip; on transport
failure a `TransportError`; on a non-200 status decode the error envelope and
fail with an `APIError`, or with a `DecodeError` if the body does not decode;
on 200 decode the body into a mapping, failing with `DecodeError` if decoding
fails, otherwise return the mapping. -/
def executeAndDecode (c : FlincapClient) (std : Stdlib) (method target : String)
    (body : Option String) : Ret :=
  let built := Event.newRequest method target body
  match std.newRequestErr method target with
  | some cause => ⟨[built], none, some (ConstructionError cause)⟩
  | none =>
    let req : http.Request :=
      { Method := method, URL := target, Body := body,
        Header := headerPolicy c.Token http.Header.empty }
    match c.HTTPClient.Do req with
    | .error cause => ⟨[built, .send req], none, some (TransportError cause)⟩
    | .ok resp =>
      let read := Event.decode resp.Body
      if resp.StatusCode = 200 then
        match std.decodeMap resp.Body with
        | (mapping, none) => ⟨[built, .send req, read], mapping, none⟩
        | (_, some cause) =>
          ⟨[built, .send req, read], none,
            some (DecodeError "failed to decode response data: " cause)⟩
      else
        match std.decodeErrResp resp.Body with
        | ((message, code), none) =>
          ⟨[built, .send req, read], none, some (APIError message code)⟩
        | (_, some cause) =>
          ⟨[built, .send req, read], none,
            some (DecodeError "failed to decode error response: " cause)⟩

/-- The request the primitive sends: built from the arguments, with the header
policy applied to an empty header. -/
def outgoing (c : FlincapClient) (method target : String) (body : Option String) :
    http.Request :=
  { Method := method, URL := target, Body := body,
    Header := headerPolicy c.Token http.Header.empty }

/-- The body shared, statement for statement, by the four `Get` methods once
the target URL is computed (used to reason about them together). -/
def getFlow (c : FlincapClient) (std : Stdlib) (target : String) : Ret :=
  match std.NewRequest "GET" target none with
  | .error err =>
    ⟨[.newRequest "GET" target none], none, some (Errorf "failed to create request: " err)⟩
  | .ok req =>
    let req := c.setHeaders req
    match c.HTTPClient.Do req with
    | .error err =>
      ⟨[.newRequest "GET" target none, .send req], none,
        some (Errorf "failed to send request: " err)⟩
    | .ok resp =>
      if resp.StatusCode ≠ http.StatusOK then
        let (evs, e) := c.handleError std resp
        ⟨[.newRequest "GET" target none, .send req] ++ evs, none, some e⟩
      else
        let (data, err) := std.decodeMap resp.Body
        match err with
        | some err =>
          ⟨[.newRequest "GET" target none, .send req, .decode resp.Body], none,
            some (Errorf "failed to decode response data: " err)⟩
        | none =>
          ⟨[.newRequest "GET" target none, .send req, .decode resp.Body], data, none⟩

/-! ## Header policy -/

theorem Header_Set_same (h : http.Header) (key value : String) :
    h.Set key value key = some [value] := by
  simp [http.Header.Set]

theorem Header_Set_other (h : http.Header) (key value k : String) (hk : k ≠ key) :
    h.Set key value k = h k := by
  simp [http.Header.Set, hk]

theorem setHeaders_Header_of_empty (c : FlincapClient) (req : http.Request)
    (ht : c.Token = "") :
    (c.setHeaders req).Header = req.Header.Set "Content-Type" "application/json" := by
  simp [FlincapClient.setHeaders, ht]

theorem setHeaders_Header_of_nonempty (c : FlincapClient) (req : http.Request)
    (ht : c.Token ≠ "") :
    (c.setHeaders req).Header =
      http.Header.Set (req.Header.Set "Content-Type" "application/json")
        "Authorization" ("Bearer " ++ c.Token) := by
  simp [FlincapClient.setHeaders, ht]

theorem setHeaders_Method (c : FlincapClient) (req : http.Request) :
    (c.setHeaders req).Method = req.Method := by
  unfold FlincapClient.setHeaders
  split <;> rfl

theorem setHeaders_URL (c : FlincapClient) (req : http.Request) :
    (c.setHeaders req).URL = req.URL := by
  unfold FlincapClient.setHeaders
  split <;> rfl

theorem setHeaders_Body (c : FlincapClient) (req : http.Request) :
    (c.setHeaders req).Body = req.Body := by
  unfold FlincapClient.setHeaders
  split <;> rfl

/-- C1: `setHeaders` sets `Content-Type` to `application/json`; it sets
`Authorization` to `Bearer ` followed by the token when the token is non-empty
and leaves `Authorization` as it was when the token is empty, so that on a
fresh request the header is present exactly when the token is non-empty; every
other header, and the method, URL and body, are left unchanged. -/
theorem setHeaders_policy (c : FlincapClient) (req : http.Request) :
    (c.setHeaders req).Header "Content-Type" = some ["application/json"] ∧
    (c.Token ≠ "" →
      (c.setHeaders req).Header "Authorization" = some ["Bearer " ++ c.Token]) ∧
    (c.Token = "" →
      (c.setHeaders req).Header "Authorization" = req.Header "Authorization") ∧
    (req.Header "Authorization" = none →
      ((c.setHeaders req).Header "Authorization" = some ["Bearer " ++ c.Token] ↔
        c.Token ≠ "") ∧
      ((c.setHeaders req).Header "Authorization" = none ↔ c.Token = "")) ∧
    (∀ k, k ≠ "Content-Type" → k ≠ "Authorization" →
      (c.setHeaders req).Header k = req.Header k) ∧
    (c.setHeaders req).Method = req.Method ∧
    (c.setHeaders req).URL = req.URL ∧
    (c.setHeaders req).Body = req.Body := by
  refine ⟨?_, ?_, ?_, ?_, ?_, setHeaders_Method c req, setHeaders_URL c req,
    setHeaders_Body c req⟩
  · by_cases ht : c.Token = ""
    · rw [setHeaders_Header_of_empty c req ht]
      exact Header_Set_same _ _ _
    · rw [setHeaders_Header_of_nonempty c req ht, Header_Set_other _ _ _ _ (by decide)]
      exact Header_Set_same _ _ _
  · intro ht
    rw [setHeaders_Header_of_nonempty c req ht]
    exact Header_Set_same _ _ _
  · intro ht
    rw [setHeaders_Header_of_empty c req ht]
    exact Header_Set_other _ _ _ _ (by decide)
  · intro h
    by_cases ht : c.Token = ""
    · rw [setHeaders_Header_of_empty c req ht, Header_Set_other _ _ _ _ (by decide), h]
      exact ⟨⟨fun h1 => (by cases h1), fun h1 => absurd ht h1⟩, fun _ => ht, fun _ => rfl⟩
    · rw [setHeaders_Header_of_nonempty c req ht, Header_Set_same]
      exact ⟨⟨fun _ => ht, fun _ => rfl⟩, fun h1 => (by cases h1), fun h1 => absurd h1 ht⟩
  · intro k h1 h2
    by_cases ht : c.Token = ""
    · rw [setHeaders_Header_of_empty c req ht]
      exact Header_Set_other _ _ _ _ h1
    · rw [setHeaders_Header_of_nonempty c req ht, Header_Set_other _ _ _ _ h2]
      exact Header_Set_other _ _ _ _ h1

/-- C1 at two clients, one with token `tok` and one with no token, on a fresh
request: with the token the request carries `Bearer tok`, without it no
`Authorization` header, and the unrelated header `Accept` stays absent. -/
theorem setHeaders_policy_witness :
    (((NewFlincapClient (replyWith 200 "") "tok").setHeaders exampleRequest).Header
        "Authorization" = some ["Bearer " ++ "tok"]) ∧
    (((NewFlincapClient (replyWith 200 "") "").setHeaders exampleRequest).Header
        "Authorization" = exampleRequest.Header "Authorization") ∧
    (((NewFlincapClient (replyWith 200 "") "").setHeaders exampleRequest).Header
        "Authorization" = none) ∧
    (((NewFlincapClient (replyWith 200 "") "tok").setHeaders exampleRequest).Header
        "Accept" = exampleRequest.Header "Accept") :=
  ⟨(setHeaders_policy (NewFlincapClient (replyWith 200 "") "tok") exampleRequest).2.1
      (by decide),
    (setHeaders_policy (NewFlincapClient (replyWith 200 "") "") exampleRequest).2.2.1 rfl,
    ((setHeaders_policy (NewFlincapClient (replyWith 200 "") "") exampleRequest).2.2.2.1
      rfl).2.2 rfl,
    (setHeaders_policy (NewFlincapClient (replyWith 200 "") "tok") exampleRequest).2.2.2.2.1
      "Accept" (by decide) (by decide)⟩

/-! ## The operations against the generic primitive -/

theorem setHeaders_eq_headerPolicy (c : FlincapClient) (req : http.Request) :
    c.setHeaders req = { req with Header := headerPolicy c.Token req.Header } := by
  unfold FlincapClient.setHeaders headerPolicy
  by_cases ht : c.Token = "" <;> simp [ht]

theorem GetRate_eq_getFlow (c : FlincapClient) (std : Stdlib) (selectedCrypt selectedFiat : String) :
    c.GetRate std selectedCrypt selectedFiat =
      getFlow c std (c.BaseURL ++ "/v1/get-rate" ++
        ("?selectedCrypt=" ++ selectedCrypt ++ "&selectedFiat=" ++ selectedFiat)) := rfl

theorem GetExchange_eq_getFlow (c : FlincapClient) (std : Stdlib) :
    c.GetExchange std = getFlow c std (c.BaseURL ++ "/v1/get-exchange") := rfl

theorem GetTransaction_eq_getFlow (c : FlincapClient) (std : Stdlib) (transactionID : String) :
    c.GetTransaction std transactionID =
      getFlow c std (c.BaseURL ++ ("/v1/get-transactions/" ++ transactionID)) := rfl

theorem GetTransactionHistory_eq_getFlow (c : FlincapClient) (std : Stdlib)
    (transactionType selectedFiat : String) :
    c.GetTransactionHistory std transactionType selectedFiat =
      getFlow c std (c.BaseURL ++ "/api/v1/get-transactions" ++
        ("?transactionType=" ++ transactionType ++ "&selectedFiat=" ++ selectedFiat)) := rfl

theorem getFlow_eq_execute (c : FlincapClient) (std : Stdlib) (target : String) :
    getFlow c std target = executeAndDecode c std "GET" target none := by
  cases h1 : std.newRequestErr "GET" target with
  | some cause =>
    simp [getFlow, executeAndDecode, Stdlib.NewRequest, h1, ConstructionError]
  | none =>
    cases h2 : c.HTTPClient.Do
      { Method := "GET", URL := target, Body := none,
        Header := headerPolicy c.Token http.Header.empty } with
    | error cause =>
      simp [getFlow, executeAndDecode, Stdlib.NewRequest, h1, setHeaders_eq_headerPolicy, h2,
        TransportError]
    | ok resp =>
      by_cases h3 : resp.StatusCode = 200
      · rcases h4 : std.decodeMap resp.Body with ⟨d, _ | e⟩ <;>
          simp [getFlow, executeAndDecode, Stdlib.NewRequest, h1, setHeaders_eq_headerPolicy,
            h2, h3, h4, http.StatusOK, DecodeError]
      · rcases h4 : std.decodeErrResp resp.Body with ⟨⟨m, code⟩, _ | e⟩ <;>
          simp [getFlow, executeAndDecode, Stdlib.NewRequest, h1, setHeaders_eq_headerPolicy,
            h2, h3, h4, http.StatusOK, DecodeError, APIError, FlincapClient.handleError]

theorem execute_trace_sends (c : FlincapClient) (std : Stdlib) (method target : String)
    (body : Option String) (req : http.Request)
    (h : Event.send req ∈ (executeAndDecode c std method target body).trace) :
    std.newRequestErr method target = none ∧ req = outgoing c method target body := by
  unfold executeAndDecode at h
  cases h1 : std.newRequestErr method target with
  | some cause => simp [h1] at h
  | none =>
    refine ⟨rfl, ?_⟩
    simp only [h1] at h
    cases h2 : c.HTTPClient.Do
      { Method := method, URL := target, Body := body,
        Header := headerPolicy c.Token http.Header.empty } with
    | error cause =>
      simp [h2] at h
      exact h
    | ok resp =>
      simp only [h2] at h
      by_cases h3 : resp.StatusCode = 200
      · rcases h4 : std.decodeMap resp.Body with ⟨d, _ | e⟩ <;>
          simp [h3, h4] at h <;> exact h
      · rcases h4 : std.decodeErrResp resp.Body with ⟨⟨m, code⟩, _ | e⟩ <;>
          simp [h3, h4] at h <;> exact h

theorem execute_of_received (c : FlincapClient) (std : Stdlib) (method target : String)
    (body : Option String) (resp : http.Response)
    (h : Received c (executeAndDecode c std method target body).trace resp) :
    std.newRequestErr method target = none ∧
      c.HTTPClient.Do (outgoing c method target body) = .ok resp := by
  obtain ⟨req, hmem, hdo⟩ := h
  obtain ⟨h1, rfl⟩ := execute_trace_sends c std method target body req hmem
  exact ⟨h1, hdo⟩

theorem execute_of_failed (c : FlincapClient) (std : Stdlib) (method target : String)
    (body : Option String) (e : GoError)
    (h : TransportFailed c (executeAndDecode c std method target body).trace e) :
    std.newRequestErr method target = none ∧
      c.HTTPClient.Do (outgoing c method target body) = .error e := by
  obtain ⟨req, hmem, hdo⟩ := h
  obtain ⟨h1, rfl⟩ := execute_trace_sends c std method target body req hmem
  exact ⟨h1, hdo⟩

theorem execute_api_error (c : FlincapClient) (std : Stdlib) (method target : String)
    (body : Option String) (resp : http.Response) (m code : String)
    (h : Received c (executeAndDecode c std method target body).trace resp)
    (hs : resp.StatusCode ≠ 200) (hd : std.decodeErrResp resp.Body = ((m, code), none)) :
    (executeAndDecode c std method target body).err =
        some (.errorString ("API error: " ++ m ++ " (code: " ++ code ++ ")")) ∧
      (executeAndDecode c std method target body).data = none := by
  obtain ⟨h1, h2⟩ := execute_of_received c std method target body resp h
  unfold outgoing at h2
  simp [executeAndDecode, h1, h2, hs, hd, APIError]

theorem execute_envelope_undecodable (c : FlincapClient) (std : Stdlib) (method target : String)
    (body : Option String) (resp : http.Response) (p : String × String) (e : GoError)
    (h : Received c (executeAndDecode c std method target body).trace resp)
    (hs : resp.StatusCode ≠ 200) (hd : std.decodeErrResp resp.Body = (p, some e)) :
    (executeAndDecode c std method target body).err =
        some (.wrapError ("failed to decode error response: " ++ e.Error) e) ∧
      (executeAndDecode c std method target body).data = none := by
  obtain ⟨h1, h2⟩ := execute_of_received c std method target body resp h
  unfold outgoing at h2
  simp [executeAndDecode, h1, h2, hs, hd, DecodeError, Errorf]

theorem execute_ok (c : FlincapClient) (std : Stdlib) (method target : String)
    (body : Option String) (resp : http.Response) (d : Option JsonMap)
    (h : Received c (executeAndDecode c std method target body).trace resp)
    (hs : resp.StatusCode = 200) (hd : std.decodeMap resp.Body = (d, none)) :
    (executeAndDecode c std method target body).data = d ∧
      (executeAndDecode c std method target body).err = none := by
  obtain ⟨h1, h2⟩ := execute_of_received c std method target body resp h
  unfold outgoing at h2
  simp [executeAndDecode, h1, h2, hs, hd]

theorem execute_body_undecodable (c : FlincapClient) (std : Stdlib) (method target : String)
    (body : Option String) (resp : http.Response) (d : Option JsonMap) (e : GoError)
    (h : Received c (executeAndDecode c std method target body).trace resp)
    (hs : resp.StatusCode = 200) (hd : std.decodeMap resp.Body = (d, some e)) :
    (executeAndDecode c std method target body).err =
        some (.wrapError ("failed to decode response data: " ++ e.Error) e) ∧
      (executeAndDecode c std method target body).data = none := by
  obtain ⟨h1, h2⟩ := execute_of_received c std method target body resp h
  unfold outgoing at h2
  simp [executeAndDecode, h1, h2, hs, hd, DecodeError, Errorf]

theorem execute_transport_failure (c : FlincapClient) (std : Stdlib) (method target : String)
    (body : Option String) (e : GoError)
    (h : TransportFailed c (executeAndDecode c std method target body).trace e) :
    (executeAndDecode c std method target body).err =
        some (.wrapError ("failed to send request: " ++ e.Error) e) ∧
      (executeAndDecode c std method target body).data = none ∧
      ∀ b, Event.decode b ∉ (executeAndDecode c std method target body).trace := by
  obtain ⟨h1, h2⟩ := execute_of_failed c std method target body e h
  unfold outgoing at h2
  simp [executeAndDecode, h1, h2, TransportError, Errorf]

theorem execute_error_nil_data (c : FlincapClient) (std : Stdlib) (method target : String)
    (body : Option String) (h : (executeAndDecode c std method target body).err ≠ none) :
    (executeAndDecode c std method target body).data = none := by
  cases h1 : std.newRequestErr method target with
  | some cause => simp [executeAndDecode, h1]
  | none =>
    cases h2 : c.HTTPClient.Do
      { Method := method, URL := target, Body := body,
        Header := headerPolicy c.Token http.Header.empty } with
    | error cause => simp [executeAndDecode, h1, h2]
    | ok resp =>
      by_cases h3 : resp.StatusCode = 200
      · rcases h4 : std.decodeMap resp.Body with ⟨d, _ | e⟩
        · simp [executeAndDecode, h1, h2, h3, h4] at h
        · simp [executeAndDecode, h1, h2, h3, h4]
      · rcases h4 : std.decodeErrResp resp.Body with ⟨⟨m, code⟩, _ | e⟩ <;>
          simp [executeAndDecode, h1, h2, h3, h4]

/-! ## `CreateTransaction` -/

theorem create_marshal_failure (c : FlincapClient) (std : Stdlib) (data : Option JsonMap) (e : GoError)
    (hm : std.jsonMarshal data = .error e) :
    c.CreateTransaction std data =
      ([], some (.wrapError ("failed to marshal payload: " ++ e.Error) e)) := by
  simp [FlincapClient.CreateTransaction, hm, Errorf]

theorem create_construction_failure (c : FlincapClient) (std : Stdlib) (data : Option JsonMap)
    (payload : String) (e : GoError) (hm : std.jsonMarshal data = .ok payload)
    (h1 : std.newRequestErr "POST" (c.BaseURL ++ "/v1/create-transaction") = some e) :
    c.CreateTransaction std data =
      ([.newRequest "POST" (c.BaseURL ++ "/v1/create-transaction") (some payload)],
        some (.wrapError ("failed to create request: " ++ e.Error) e)) := by
  simp [FlincapClient.CreateTransaction, hm, Stdlib.NewRequest, h1, Errorf]

theorem create_transport_failure (c : FlincapClient) (std : Stdlib) (data : Option JsonMap)
    (payload : String) (e : GoError) (hm : std.jsonMarshal data = .ok payload)
    (h1 : std.newRequestErr "POST" (c.BaseURL ++ "/v1/create-transaction") = none)
    (h2 : c.HTTPClient.Do
      (outgoing c "POST" (c.BaseURL ++ "/v1/create-transaction") (some payload)) = .error e) :
    c.CreateTransaction std data =
      ([.newRequest "POST" (c.BaseURL ++ "/v1/create-transaction") (some payload),
        .send (outgoing c "POST" (c.BaseURL ++ "/v1/create-transaction") (some payload))],
        some (.wrapError ("failed to send request: " ++ e.Error) e)) := by
  unfold outgoing at h2 ⊢
  simp [FlincapClient.CreateTransaction, hm, Stdlib.NewRequest, h1, setHeaders_eq_headerPolicy,
    h2, Errorf]

theorem create_status_ok (c : FlincapClient) (std : Stdlib) (data : Option JsonMap)
    (payload : String) (resp : http.Response) (hm : std.jsonMarshal data = .ok payload)
    (h1 : std.newRequestErr "POST" (c.BaseURL ++ "/v1/create-transaction") = none)
    (h2 : c.HTTPClient.Do
      (outgoing c "POST" (c.BaseURL ++ "/v1/create-transaction") (some payload)) = .ok resp)
    (hs : resp.StatusCode = 200) :
    c.CreateTransaction std data =
      ([.newRequest "POST" (c.BaseURL ++ "/v1/create-transaction") (some payload),
        .send (outgoing c "POST" (c.BaseURL ++ "/v1/create-transaction") (some payload))],
        none) := by
  unfold outgoing at h2 ⊢
  simp [FlincapClient.CreateTransaction, hm, Stdlib.NewRequest, h1, setHeaders_eq_headerPolicy,
    h2, hs, http.StatusOK]

theorem create_status_not_ok (c : FlincapClient) (std : Stdlib) (data : Option JsonMap)
    (payload : String) (resp : http.Response) (hm : std.jsonMarshal data = .ok payload)
    (h1 : std.newRequestErr "POST" (c.BaseURL ++ "/v1/create-transaction") = none)
    (h2 : c.HTTPClient.Do
      (outgoing c "POST" (c.BaseURL ++ "/v1/create-transaction") (some payload)) = .ok resp)
    (hs : resp.StatusCode ≠ 200) :
    c.CreateTransaction std data =
      ([.newRequest "POST" (c.BaseURL ++ "/v1/create-transaction") (some payload),
        .send (outgoing c "POST" (c.BaseURL ++ "/v1/create-transaction") (some payload)),
        .decode resp.Body],
        some (match std.decodeErrResp resp.Body with
          | (_, some e) => .wrapError ("failed to decode error response: " ++ e.Error) e
          | ((m, code), none) =>
            .errorString ("API error: " ++ m ++ " (code: " ++ code ++ ")"))) := by
  unfold outgoing at h2 ⊢
  rcases h4 : std.decodeErrResp resp.Body with ⟨⟨m, code⟩, _ | e⟩ <;>
    simp [FlincapClient.CreateTransaction, hm, Stdlib.NewRequest, h1,
      setHeaders_eq_headerPolicy, h2, hs, http.StatusOK, FlincapClient.handleError, h4, Errorf]

theorem create_trace_sends (c : FlincapClient) (std : Stdlib) (data : Option JsonMap)
    (req : http.Request) (h : Event.send req ∈ (c.CreateTransaction std data).1) :
    ∃ payload, std.jsonMarshal data = .ok payload ∧
      std.newRequestErr "POST" (c.BaseURL ++ "/v1/create-transaction") = none ∧
      req = outgoing c "POST" (c.BaseURL ++ "/v1/create-transaction") (some payload) := by
  cases hm : std.jsonMarshal data with
  | error e => rw [create_marshal_failure c std data e hm] at h; simp at h
  | ok payload =>
    refine ⟨payload, rfl, ?_⟩
    cases h1 : std.newRequestErr "POST" (c.BaseURL ++ "/v1/create-transaction") with
    | some e => rw [create_construction_failure c std data payload e hm h1] at h; simp at h
    | none =>
      refine ⟨rfl, ?_⟩
      cases h2 : c.HTTPClient.Do
        (outgoing c "POST" (c.BaseURL ++ "/v1/create-transaction") (some payload)) with
      | error e =>
        rw [create_transport_failure c std data payload e hm h1 h2] at h
        simpa using h
      | ok resp =>
        by_cases hs : resp.StatusCode = 200
        · rw [create_status_ok c std data payload resp hm h1 h2 hs] at h
          simpa using h
        · rw [create_status_not_ok c std data payload resp hm h1 h2 hs] at h
          simpa using h

theorem create_of_received (c : FlincapClient) (std : Stdlib) (data : Option JsonMap)
    (resp : http.Response) (h : Received c (c.CreateTransaction std data).1 resp) :
    ∃ payload, std.jsonMarshal data = .ok payload ∧
      std.newRequestErr "POST" (c.BaseURL ++ "/v1/create-transaction") = none ∧
      c.HTTPClient.Do
        (outgoing c "POST" (c.BaseURL ++ "/v1/create-transaction") (some payload)) =
          .ok resp := by
  obtain ⟨req, hmem, hdo⟩ := h
  obtain ⟨payload, hm, h1, rfl⟩ := create_trace_sends c std data req hmem
  exact ⟨payload, hm, h1, hdo⟩

theorem create_of_failed (c : FlincapClient) (std : Stdlib) (data : Option JsonMap)
    (e : GoError) (h : TransportFailed c (c.CreateTransaction std data).1 e) :
    ∃ payload, std.jsonMarshal data = .ok payload ∧
      std.newRequestErr "POST" (c.BaseURL ++ "/v1/create-transaction") = none ∧
      c.HTTPClient.Do
        (outgoing c "POST" (c.BaseURL ++ "/v1/create-transaction") (some payload)) =
          .error e := by
  obtain ⟨req, hmem, hdo⟩ := h
  obtain ⟨payload, hm, h1, rfl⟩ := create_trace_sends c std data req hmem
  exact ⟨payload, hm, h1, hdo⟩

theorem execute_received_of (c : FlincapClient) (std : Stdlib) (method target : String)
    (body : Option String) (resp : http.Response)
    (h1 : std.newRequestErr method target = none)
    (h2 : c.HTTPClient.Do (outgoing c method target body) = .ok resp) :
    Received c (executeAndDecode c std method target body).trace resp := by
  refine ⟨outgoing c method target body, ?_, h2⟩
  unfold outgoing at h2 ⊢
  by_cases h3 : resp.StatusCode = 200
  · rcases h4 : std.decodeMap resp.Body with ⟨d, _ | e⟩ <;>
      simp [executeAndDecode, h1, h2, h3, h4]
  · rcases h4 : std.decodeErrResp resp.Body with ⟨⟨m, code⟩, _ | e⟩ <;>
      simp [executeAndDecode, h1, h2, h3, h4]

theorem execute_failed_of (c : FlincapClient) (std : Stdlib) (method target : String)
    (body : Option String) (e : GoError)
    (h1 : std.newRequestErr method target = none)
    (h2 : c.HTTPClient.Do (outgoing c method target body) = .error e) :
    TransportFailed c (executeAndDecode c std method target body).trace e := by
  refine ⟨outgoing c method target body, ?_, h2⟩
  unfold outgoing at h2 ⊢
  simp [executeAndDecode, h1, h2]

theorem create_received_of (c : FlincapClient) (std : Stdlib) (data : Option JsonMap)
    (payload : String) (resp : http.Response) (hm : std.jsonMarshal data = .ok payload)
    (h1 : std.newRequestErr "POST" (c.BaseURL ++ "/v1/create-transaction") = none)
    (h2 : c.HTTPClient.Do
      (outgoing c "POST" (c.BaseURL ++ "/v1/create-transaction") (some payload)) = .ok resp) :
    Received c (c.CreateTransaction std data).1 resp := by
  refine ⟨outgoing c "POST" (c.BaseURL ++ "/v1/create-transaction") (some payload), ?_, h2⟩
  by_cases hs : resp.StatusCode = 200
  · rw [create_status_ok c std data payload resp hm h1 h2 hs]
    simp
  · rw [create_status_not_ok c std data payload resp hm h1 h2 hs]
    simp

theorem create_failed_of (c : FlincapClient) (std : Stdlib) (data : Option JsonMap)
    (payload : String) (e : GoError) (hm : std.jsonMarshal data = .ok payload)
    (h1 : std.newRequestErr "POST" (c.BaseURL ++ "/v1/create-transaction") = none)
    (h2 : c.HTTPClient.Do
      (outgoing c "POST" (c.BaseURL ++ "/v1/create-transaction") (some payload)) = .error e) :
    TransportFailed c (c.CreateTransaction std data).1 e := by
  refine ⟨outgoing c "POST" (c.BaseURL ++ "/v1/create-transaction") (some payload), ?_, h2⟩
  rw [create_transport_failure c std data payload e hm h1 h2]
  simp

/-! ## Error envelope on a non-200 status -/

/-- C2: for each of the five operations, when the round trip returns a response
whose status is not 200 and whose body decodes as the error envelope with
message `m` and code `code`, the call fails with the error whose text is
`API error: m (code: code)`, and the mapping-returning operations return a nil
mapping. -/
theorem api_error_on_non200 (c : FlincapClient) (std : Stdlib) (resp : http.Response)
    (m code : String) (hs : resp.StatusCode ≠ 200)
    (hd : std.decodeErrResp resp.Body = ((m, code), none)) :
    (∀ crypt fiat, Received c (c.GetRate std crypt fiat).trace resp →
      (c.GetRate std crypt fiat).err =
          some (.errorString ("API error: " ++ m ++ " (code: " ++ code ++ ")")) ∧
        (c.GetRate std crypt fiat).data = none) ∧
    (Received c (c.GetExchange std).trace resp →
      (c.GetExchange std).err =
          some (.errorString ("API error: " ++ m ++ " (code: " ++ code ++ ")")) ∧
        (c.GetExchange std).data = none) ∧
    (∀ data, Received c (c.CreateTransaction std data).1 resp →
      (c.CreateTransaction std data).2 =
          some (.errorString ("API error: " ++ m ++ " (code: " ++ code ++ ")"))) ∧
    (∀ id, Received c (c.GetTransaction std id).trace resp →
      (c.GetTransaction std id).err =
          some (.errorString ("API error: " ++ m ++ " (code: " ++ code ++ ")")) ∧
        (c.GetTransaction std id).data = none) ∧
    (∀ type fiat, Received c (c.GetTransactionHistory std type fiat).trace resp →
      (c.GetTransactionHistory std type fiat).err =
          some (.errorString ("API error: " ++ m ++ " (code: " ++ code ++ ")")) ∧
        (c.GetTransactionHistory std type fiat).data = none) := by
  refine ⟨?_, ?_, ?_, ?_, ?_⟩
  · intro crypt fiat h
    rw [GetRate_eq_getFlow, getFlow_eq_execute] at h ⊢
    exact execute_api_error c std _ _ _ resp m code h hs hd
  · intro h
    rw [GetExchange_eq_getFlow, getFlow_eq_execute] at h ⊢
    exact execute_api_error c std _ _ _ resp m code h hs hd
  · intro data h
    obtain ⟨payload, hm, h1, h2⟩ := create_of_received c std data resp h
    rw [create_status_not_ok c std data payload resp hm h1 h2 hs, hd]
  · intro id h
    rw [GetTransaction_eq_getFlow, getFlow_eq_execute] at h ⊢
    exact execute_api_error c std _ _ _ resp m code h hs hd
  · intro type fiat h
    rw [GetTransactionHistory_eq_getFlow, getFlow_eq_execute] at h ⊢
    exact execute_api_error c std _ _ _ resp m code h hs hd

/-- C2 on the body of the specification: a 400 response carrying the envelope
`bad input` / `E1` makes `GetTransaction` and `CreateTransaction` fail with the
API error built from exactly these two fields. -/
theorem api_error_on_non200_witness :
    ((NewFlincapClient (replyWith 400 errorEnvelopeBody) "tok").GetTransaction
        exampleStd "tx1").err =
      some (.errorString ("API error: " ++ "bad input" ++ " (code: " ++ "E1" ++ ")")) ∧
    ((NewFlincapClient (replyWith 400 errorEnvelopeBody) "tok").CreateTransaction
        exampleStd (some [("amount", .number "10")])).2 =
      some (.errorString ("API error: " ++ "bad input" ++ " (code: " ++ "E1" ++ ")")) :=
  ⟨((api_error_on_non200 (NewFlincapClient (replyWith 400 errorEnvelopeBody) "tok") exampleStd
      { StatusCode := 400, Body := errorEnvelopeBody } "bad input" "E1" (by decide)
      (by simp [exampleStd])).2.2.2.1 "tx1"
      (by
        rw [GetTransaction_eq_getFlow, getFlow_eq_execute]
        exact execute_received_of _ _ _ _ _ _ rfl rfl)).1,
    (api_error_on_non200 (NewFlincapClient (replyWith 400 errorEnvelopeBody) "tok") exampleStd
      { StatusCode := 400, Body := errorEnvelopeBody } "bad input" "E1" (by decide)
      (by simp [exampleStd])).2.2.1 (some [("amount", .number "10")])
      (create_received_of _ _ _ _ _ rfl rfl rfl)⟩

/-! ## `CreateTransaction` succeeds exactly on status 200 -/

/-- C3: once `CreateTransaction` has sent its request and the round trip has
returned a response, the call returns no error if and only if the status is
200, whatever the body and whatever the decoder would make of it; on a 200 the
body is never decoded. -/
theorem createTransaction_ok_iff_200 (c : FlincapClient) (std : Stdlib) (data : Option JsonMap)
    (resp : http.Response) (h : Received c (c.CreateTransaction std data).1 resp) :
    ((c.CreateTransaction std data).2 = none ↔ resp.StatusCode = 200) ∧
    (resp.StatusCode = 200 → ∀ b, Event.decode b ∉ (c.CreateTransaction std data).1) := by
  obtain ⟨payload, hm, h1, h2⟩ := create_of_received c std data resp h
  by_cases hs : resp.StatusCode = 200
  · rw [create_status_ok c std data payload resp hm h1 h2 hs]
    simp [hs]
  · rw [create_status_not_ok c std data payload resp hm h1 h2 hs]
    simp [hs]

/-- C3 on two responses with the same body, which is not JSON: with status 200
the call succeeds, with status 500 it fails. -/
theorem createTransaction_ok_iff_200_witness :
    ((NewFlincapClient (replyWith 200 "<html>") "tok").CreateTransaction exampleStd
        (some [("amount", .number "10")])).2 = none ∧
    ((NewFlincapClient (replyWith 500 "<html>") "tok").CreateTransaction exampleStd
        (some [("amount", .number "10")])).2 ≠ none :=
  ⟨(createTransaction_ok_iff_200 (NewFlincapClient (replyWith 200 "<html>") "tok") exampleStd
      (some [("amount", .number "10")]) { StatusCode := 200, Body := "<html>" }
      (create_received_of _ _ _ _ _ rfl rfl rfl)).1.mpr rfl,
    fun hnone => absurd
      ((createTransaction_ok_iff_200 (NewFlincapClient (replyWith 500 "<html>") "tok")
        exampleStd (some [("amount", .number "10")]) { StatusCode := 500, Body := "<html>" }
        (create_received_of _ _ _ _ _ rfl rfl rfl)).1.mp hnone) (by decide)⟩

/-! ## Decoding the body of a 200 response -/

/-- C4, amended: when the round trip returns a 200 response whose body the
decoder decodes, with no error, to the JSON object `m`, each of `GetRate`,
`GetExchange`, `GetTransaction` and `GetTransactionHistory` returns exactly `m`
and no error. -/
theorem decoded_mapping_on_200 (c : FlincapClient) (std : Stdlib) (resp : http.Response)
    (m : JsonMap) (hs : resp.StatusCode = 200)
    (hd : std.decodeMap resp.Body = (some m, none)) :
    (∀ crypt fiat, Received c (c.GetRate std crypt fiat).trace resp →
      (c.GetRate std crypt fiat).data = some m ∧ (c.GetRate std crypt fiat).err = none) ∧
    (Received c (c.GetExchange std).trace resp →
      (c.GetExchange std).data = some m ∧ (c.GetExchange std).err = none) ∧
    (∀ id, Received c (c.GetTransaction std id).trace resp →
      (c.GetTransaction std id).data = some m ∧ (c.GetTransaction std id).err = none) ∧
    (∀ type fiat, Received c (c.GetTransactionHistory std type fiat).trace resp →
      (c.GetTransactionHistory std type fiat).data = some m ∧ (c.GetTransactionHistory std type fiat).err = none) := by
  refine ⟨?_, ?_, ?_, ?_⟩
  · intro crypt fiat h
    rw [GetRate_eq_getFlow, getFlow_eq_execute] at h ⊢
    exact execute_ok c std _ _ _ resp (some m) h hs hd
  · intro h
    rw [GetExchange_eq_getFlow, getFlow_eq_execute] at h ⊢
    exact execute_ok c std _ _ _ resp (some m) h hs hd
  · intro id h
    rw [GetTransaction_eq_getFlow, getFlow_eq_execute] at h ⊢
    exact execute_ok c std _ _ _ resp (some m) h hs hd
  · intro type fiat h
    rw [GetTransactionHistory_eq_getFlow, getFlow_eq_execute] at h ⊢
    exact execute_ok c std _ _ _ resp (some m) h hs hd

/-- C4, amended, on the body of the specification: `GetTransaction("tx1")` on a
200 response with the transaction document, decoded as `encoding/json` does,
returns the mapping with `id` `tx1` and `status` `ok`. -/
theorem decoded_mapping_on_200_witness :
    ((NewFlincapClient (replyWith 200 transactionBody) "tok").GetTransaction
        exampleStd "tx1").data = some [("id", .str "tx1"), ("status", .str "ok")] ∧
    ((NewFlincapClient (replyWith 200 transactionBody) "tok").GetTransaction
        exampleStd "tx1").err = none :=
  (decoded_mapping_on_200 (NewFlincapClient (replyWith 200 transactionBody) "tok") exampleStd
    { StatusCode := 200, Body := transactionBody } [("id", .str "tx1"), ("status", .str "ok")]
    rfl (by rfl)).2.2.1 "tx1"
    (by
      rw [GetTransaction_eq_getFlow, getFlow_eq_execute]
      exact execute_received_of _ _ _ _ _ _ rfl rfl)

set_option maxRecDepth 20000 in
/-- C4 as stated fails: the body `{"a":1e400}` is a JSON object, yet on a 200
response carrying it `GetTransaction("tx1")` returns a nil mapping and an error:
the number does not fit a `float64`, the decoder reports it, and the operation
wraps the decoder's error. -/
theorem json_object_rejected_by_decoder :
    json.IsObject "\x7b\"a\":1e400\x7d" = true ∧
    ((NewFlincapClient (replyWith 200 "\x7b\"a\":1e400\x7d") "tok").GetTransaction
        exampleStd "tx1").err =
      some (.wrapError ("failed to decode response data: " ++
        (json.UnmarshalTypeError "number 1e400" "float64").Error)
        (json.UnmarshalTypeError "number 1e400" "float64")) ∧
    ((NewFlincapClient (replyWith 200 "\x7b\"a\":1e400\x7d") "tok").GetTransaction
        exampleStd "tx1").data = none := by
  have hd : exampleStd.decodeMap "\x7b\"a\":1e400\x7d" =
      (some [("a", .null)], some (json.UnmarshalTypeError "number 1e400" "float64")) := by
    rfl
  refine ⟨by decide, ?_⟩
  rw [GetTransaction_eq_getFlow, getFlow_eq_execute]
  exact execute_body_undecodable _ _ _ _ _ { StatusCode := 200, Body := "\x7b\"a\":1e400\x7d" }
    _ _ (execute_received_of _ _ _ _ _ _ rfl rfl) rfl hd

/-- C6: for each of the five operations, when the round trip returns a response
whose status is not 200 and on whose body the envelope decoder fails with `e`,
the call fails with an error that wraps `e` under the message
`failed to decode error response: `; the error is not an API error, the call
does not report success, and no mapping is returned. -/
theorem decode_error_on_non200 (c : FlincapClient) (std : Stdlib) (resp : http.Response)
    (p : String × String) (e : GoError) (hs : resp.StatusCode ≠ 200)
    (hd : std.decodeErrResp resp.Body = (p, some e)) :
    (∀ crypt fiat, Received c (c.GetRate std crypt fiat).trace resp →
      (c.GetRate std crypt fiat).err =
          some (.wrapError ("failed to decode error response: " ++ e.Error) e) ∧
        (∀ m code, (c.GetRate std crypt fiat).err ≠
          some (.errorString ("API error: " ++ m ++ " (code: " ++ code ++ ")"))) ∧
        (c.GetRate std crypt fiat).err ≠ none ∧ (c.GetRate std crypt fiat).data = none) ∧
    (Received c (c.GetExchange std).trace resp →
      (c.GetExchange std).err =
          some (.wrapError ("failed to decode error response: " ++ e.Error) e) ∧
        (∀ m code, (c.GetExchange std).err ≠
          some (.errorString ("API error: " ++ m ++ " (code: " ++ code ++ ")"))) ∧
        (c.GetExchange std).err ≠ none ∧ (c.GetExchange std).data = none) ∧
    (∀ data, Received c (c.CreateTransaction std data).1 resp →
      (c.CreateTransaction std data).2 =
          some (.wrapError ("failed to decode error response: " ++ e.Error) e) ∧
        (∀ m code, (c.CreateTransaction std data).2 ≠
          some (.errorString ("API error: " ++ m ++ " (code: " ++ code ++ ")"))) ∧
        (c.CreateTransaction std data).2 ≠ none) ∧
    (∀ id, Received c (c.GetTransaction std id).trace resp →
      (c.GetTransaction std id).err =
          some (.wrapError ("failed to decode error response: " ++ e.Error) e) ∧
        (∀ m code, (c.GetTransaction std id).err ≠
          some (.errorString ("API error: " ++ m ++ " (code: " ++ code ++ ")"))) ∧
        (c.GetTransaction std id).err ≠ none ∧ (c.GetTransaction std id).data = none) ∧
    (∀ type fiat, Received c (c.GetTransactionHistory std type fiat).trace resp →
      (c.GetTransactionHistory std type fiat).err =
          some (.wrapError ("failed to decode error response: " ++ e.Error) e) ∧
        (∀ m code, (c.GetTransactionHistory std type fiat).err ≠
          some (.errorString ("API error: " ++ m ++ " (code: " ++ code ++ ")"))) ∧
        (c.GetTransactionHistory std type fiat).err ≠ none ∧ (c.GetTransactionHistory std type fiat).data = none) := by
  refine ⟨?_, ?_, ?_, ?_, ?_⟩
  · intro crypt fiat h
    rw [GetRate_eq_getFlow, getFlow_eq_execute] at h ⊢
    obtain ⟨h5, h6⟩ := execute_envelope_undecodable c std _ _ _ resp p e h hs hd
    rw [h5]
    exact ⟨rfl, fun m code hc => (by cases hc), fun hc => (by cases hc), h6⟩
  · intro h
    rw [GetExchange_eq_getFlow, getFlow_eq_execute] at h ⊢
    obtain ⟨h5, h6⟩ := execute_envelope_undecodable c std _ _ _ resp p e h hs hd
    rw [h5]
    exact ⟨rfl, fun m code hc => (by cases hc), fun hc => (by cases hc), h6⟩
  · intro data h
    obtain ⟨payload, hm, h1, h2⟩ := create_of_received c std data resp h
    rw [create_status_not_ok c std data payload resp hm h1 h2 hs, hd]
    simp
  · intro id h
    rw [GetTransaction_eq_getFlow, getFlow_eq_execute] at h ⊢
    obtain ⟨h5, h6⟩ := execute_envelope_undecodable c std _ _ _ resp p e h hs hd
    rw [h5]
    exact ⟨rfl, fun m code hc => (by cases hc), fun hc => (by cases hc), h6⟩
  · intro type fiat h
    rw [GetTransactionHistory_eq_getFlow, getFlow_eq_execute] at h ⊢
    obtain ⟨h5, h6⟩ := execute_envelope_undecodable c std _ _ _ resp p e h hs hd
    rw [h5]
    exact ⟨rfl, fun m code hc => (by cases hc), fun hc => (by cases hc), h6⟩

/-- C6 on a 502 response with an HTML body: `GetExchange` and
`CreateTransaction` fail with the wrapped decode failure. -/
theorem decode_error_on_non200_witness :
    ((NewFlincapClient (replyWith 502 "<html>") "tok").GetExchange exampleStd).err =
      some (.wrapError ("failed to decode error response: " ++
        (GoError.lib "invalid character in error body").Error)
        (.lib "invalid character in error body")) ∧
    ((NewFlincapClient (replyWith 502 "<html>") "tok").CreateTransaction exampleStd
        (some [("amount", .number "10")])).2 =
      some (.wrapError ("failed to decode error response: " ++
        (GoError.lib "invalid character in error body").Error)
        (.lib "invalid character in error body")) :=
  ⟨((decode_error_on_non200 (NewFlincapClient (replyWith 502 "<html>") "tok") exampleStd
      { StatusCode := 502, Body := "<html>" } ("", "")
      (.lib "invalid character in error body") (by decide)
      (by simp [exampleStd, errorEnvelopeBody])).2.1
      (by
        rw [GetExchange_eq_getFlow, getFlow_eq_execute]
        exact execute_received_of _ _ _ _ _ _ rfl rfl)).1,
    ((decode_error_on_non200 (NewFlincapClient (replyWith 502 "<html>") "tok") exampleStd
      { StatusCode := 502, Body := "<html>" } ("", "")
      (.lib "invalid character in error body") (by decide)
      (by simp [exampleStd, errorEnvelopeBody])).2.2.1 (some [("amount", .number "10")])
      (create_received_of _ _ _ _ _ rfl rfl rfl)).1⟩

/-! ## Transport failure, and no partial results -/

/-- C9: for each of the five operations, when the round trip fails with cause
`e`, the call fails with an error that wraps `e` under the message
`failed to send request: `, no body is decoded, and the mapping-returning
operations return a nil mapping; and whenever a mapping-returning operation
returns an error, on any path, its mapping is nil. -/
theorem transport_failure_wrapped (c : FlincapClient) (std : Stdlib) (e : GoError) :
    (∀ crypt fiat, TransportFailed c (c.GetRate std crypt fiat).trace e →
      (c.GetRate std crypt fiat).err = some (.wrapError ("failed to send request: " ++ e.Error) e) ∧
        (c.GetRate std crypt fiat).data = none ∧ ∀ b, Event.decode b ∉ (c.GetRate std crypt fiat).trace) ∧
    (TransportFailed c (c.GetExchange std).trace e →
      (c.GetExchange std).err = some (.wrapError ("failed to send request: " ++ e.Error) e) ∧
        (c.GetExchange std).data = none ∧ ∀ b, Event.decode b ∉ (c.GetExchange std).trace) ∧
    (∀ data, TransportFailed c (c.CreateTransaction std data).1 e →
      (c.CreateTransaction std data).2 =
          some (.wrapError ("failed to send request: " ++ e.Error) e) ∧
        ∀ b, Event.decode b ∉ (c.CreateTransaction std data).1) ∧
    (∀ id, TransportFailed c (c.GetTransaction std id).trace e →
      (c.GetTransaction std id).err = some (.wrapError ("failed to send request: " ++ e.Error) e) ∧
        (c.GetTransaction std id).data = none ∧ ∀ b, Event.decode b ∉ (c.GetTransaction std id).trace) ∧
    (∀ type fiat, TransportFailed c (c.GetTransactionHistory std type fiat).trace e →
      (c.GetTransactionHistory std type fiat).err = some (.wrapError ("failed to send request: " ++ e.Error) e) ∧
        (c.GetTransactionHistory std type fiat).data = none ∧ ∀ b, Event.decode b ∉ (c.GetTransactionHistory std type fiat).trace) ∧
    (∀ crypt fiat, (c.GetRate std crypt fiat).err ≠ none → (c.GetRate std crypt fiat).data = none) ∧
    ((c.GetExchange std).err ≠ none → (c.GetExchange std).data = none) ∧
    (∀ id, (c.GetTransaction std id).err ≠ none → (c.GetTransaction std id).data = none) ∧
    (∀ type fiat, (c.GetTransactionHistory std type fiat).err ≠ none → (c.GetTransactionHistory std type fiat).data = none) := by
  refine ⟨?_, ?_, ?_, ?_, ?_, ?_, ?_, ?_, ?_⟩
  · intro crypt fiat h
    rw [GetRate_eq_getFlow, getFlow_eq_execute] at h ⊢
    exact execute_transport_failure c std _ _ _ e h
  · intro h
    rw [GetExchange_eq_getFlow, getFlow_eq_execute] at h ⊢
    exact execute_transport_failure c std _ _ _ e h
  · intro data h
    obtain ⟨payload, hm, h1, h2⟩ := create_of_failed c std data e h
    rw [create_transport_failure c std data payload e hm h1 h2]
    simp
  · intro id h
    rw [GetTransaction_eq_getFlow, getFlow_eq_execute] at h ⊢
    exact execute_transport_failure c std _ _ _ e h
  · intro type fiat h
    rw [GetTransactionHistory_eq_getFlow, getFlow_eq_execute] at h ⊢
    exact execute_transport_failure c std _ _ _ e h
  · intro crypt fiat h
    rw [GetRate_eq_getFlow, getFlow_eq_execute] at h ⊢
    exact execute_error_nil_data c std _ _ _ h
  · intro h
    rw [GetExchange_eq_getFlow, getFlow_eq_execute] at h ⊢
    exact execute_error_nil_data c std _ _ _ h
  · intro id h
    rw [GetTransaction_eq_getFlow, getFlow_eq_execute] at h ⊢
    exact execute_error_nil_data c std _ _ _ h
  · intro type fiat h
    rw [GetTransactionHistory_eq_getFlow, getFlow_eq_execute] at h ⊢
    exact execute_error_nil_data c std _ _ _ h

/-- C9 on a transport that refuses every connection: `GetRate` and
`CreateTransaction` fail with the wrapped cause, and `GetRate`, which returns
an error, has a nil mapping. -/
theorem transport_failure_wrapped_witness :
    ((NewFlincapClient (failWith (.lib "connection refused")) "tok").GetRate exampleStd
        "BTC" "USD").err =
      some (.wrapError ("failed to send request: " ++
        (GoError.lib "connection refused").Error) (.lib "connection refused")) ∧
    ((NewFlincapClient (failWith (.lib "connection refused")) "tok").CreateTransaction
        exampleStd (some [("amount", .number "10")])).2 =
      some (.wrapError ("failed to send request: " ++
        (GoError.lib "connection refused").Error) (.lib "connection refused")) ∧
    ((NewFlincapClient (failWith (.lib "connection refused")) "tok").GetRate exampleStd
        "BTC" "USD").data = none :=
  ⟨((transport_failure_wrapped (NewFlincapClient (failWith (.lib "connection refused")) "tok")
      exampleStd (.lib "connection refused")).1 "BTC" "USD"
      (by
        rw [GetRate_eq_getFlow, getFlow_eq_execute]
        exact execute_failed_of _ _ _ _ _ _ rfl rfl)).1,
    ((transport_failure_wrapped (NewFlincapClient (failWith (.lib "connection refused")) "tok")
      exampleStd (.lib "connection refused")).2.2.1 (some [("amount", .number "10")])
      (create_failed_of _ _ _ _ _ rfl rfl rfl)).1,
    (transport_failure_wrapped (NewFlincapClient (failWith (.lib "connection refused")) "tok")
      exampleStd (.lib "connection refused")).2.2.2.2.2.1 "BTC" "USD"
      (by
        rw [GetRate_eq_getFlow, getFlow_eq_execute]
        simp [executeAndDecode, exampleStd, NewFlincapClient, failWith])⟩

/-! ## Request targets -/

theorem rate_target (base crypt fiat : String) :
    base ++ "/v1/get-rate" ++ ("?selectedCrypt=" ++ crypt ++ "&selectedFiat=" ++ fiat) =
      base ++ "/v1/get-rate?selectedCrypt=" ++ crypt ++ "&selectedFiat=" ++ fiat := by
  have h : "/v1/get-rate" ++ "?selectedCrypt=" = "/v1/get-rate?selectedCrypt=" := by decide
  rw [← h]
  simp only [String.append_assoc]

theorem history_target (base type fiat : String) :
    base ++ "/api/v1/get-transactions" ++
        ("?transactionType=" ++ type ++ "&selectedFiat=" ++ fiat) =
      base ++ "/api/v1/get-transactions?transactionType=" ++ type ++ "&selectedFiat=" ++
        fiat := by
  have h : "/api/v1/get-transactions" ++ "?transactionType=" =
      "/api/v1/get-transactions?transactionType=" := by decide
  rw [← h]
  simp only [String.append_assoc]

theorem transaction_target (base id : String) :
    base ++ ("/v1/get-transactions/" ++ id) = base ++ "/v1/get-transactions/" ++ id := by
  simp only [String.append_assoc]

theorem execute_targets (c : FlincapClient) (std : Stdlib) (method target : String)
    (body : Option String) :
    Targets (executeAndDecode c std method target body).trace method target := by
  unfold Targets targets
  cases h1 : std.newRequestErr method target with
  | some cause => simp [executeAndDecode, h1, Event.target]
  | none =>
    cases h2 : c.HTTPClient.Do
      { Method := method, URL := target, Body := body,
        Header := headerPolicy c.Token http.Header.empty } with
    | error cause => simp [executeAndDecode, h1, h2, Event.target]
    | ok resp =>
      by_cases h3 : resp.StatusCode = 200
      · rcases h4 : std.decodeMap resp.Body with ⟨d, _ | e⟩ <;>
          simp [executeAndDecode, h1, h2, h3, h4, Event.target]
      · rcases h4 : std.decodeErrResp resp.Body with ⟨⟨m, code⟩, _ | e⟩ <;>
          simp [executeAndDecode, h1, h2, h3, h4, Event.target]

theorem create_targets (c : FlincapClient) (std : Stdlib) (data : Option JsonMap) (payload : String)
    (hm : std.jsonMarshal data = .ok payload) :
    Targets (c.CreateTransaction std data).1 "POST" (c.BaseURL ++ "/v1/create-transaction") := by
  unfold Targets targets
  cases h1 : std.newRequestErr "POST" (c.BaseURL ++ "/v1/create-transaction") with
  | some e =>
    rw [create_construction_failure c std data payload e hm h1]
    simp [Event.target]
  | none =>
    cases h2 : c.HTTPClient.Do
      (outgoing c "POST" (c.BaseURL ++ "/v1/create-transaction") (some payload)) with
    | error e =>
      rw [create_transport_failure c std data payload e hm h1 h2]
      simp [Event.target, outgoing]
    | ok resp =>
      by_cases hs : resp.StatusCode = 200
      · rw [create_status_ok c std data payload resp hm h1 h2 hs]
        simp [Event.target, outgoing]
      · rw [create_status_not_ok c std data payload resp hm h1 h2 hs]
        simp [Event.target, outgoing]

/-- C8: for every base URL and all argument strings, every request an operation
builds or sends has the operation's method and, as URL, the exact concatenation
of the base URL, the fixed route and the arguments as given: nothing is
validated or escaped.  The four `Get` operations always build their request;
`CreateTransaction` builds it once the payload is serialized, and builds none
when serialization fails. -/
theorem targets_are_concatenations (c : FlincapClient) (std : Stdlib) :
    (∀ crypt fiat, Targets (c.GetRate std crypt fiat).trace "GET"
      (c.BaseURL ++ "/v1/get-rate?selectedCrypt=" ++ crypt ++ "&selectedFiat=" ++ fiat)) ∧
    Targets (c.GetExchange std).trace "GET" (c.BaseURL ++ "/v1/get-exchange") ∧
    (∀ data payload, std.jsonMarshal data = .ok payload →
      Targets (c.CreateTransaction std data).1 "POST"
        (c.BaseURL ++ "/v1/create-transaction")) ∧
    (∀ data e, std.jsonMarshal data = .error e →
      targets (c.CreateTransaction std data).1 = []) ∧
    (∀ id, Targets (c.GetTransaction std id).trace "GET"
      (c.BaseURL ++ "/v1/get-transactions/" ++ id)) ∧
    (∀ type fiat, Targets (c.GetTransactionHistory std type fiat).trace "GET"
      (c.BaseURL ++ "/api/v1/get-transactions?transactionType=" ++ type ++
        "&selectedFiat=" ++ fiat)) := by
  refine ⟨?_, ?_, ?_, ?_, ?_, ?_⟩
  · intro crypt fiat
    rw [GetRate_eq_getFlow, getFlow_eq_execute, rate_target]
    exact execute_targets c std _ _ _
  · rw [GetExchange_eq_getFlow, getFlow_eq_execute]
    exact execute_targets c std _ _ _
  · intro data payload hm
    exact create_targets c std data payload hm
  · intro data e hm
    rw [create_marshal_failure c std data e hm]
    rfl
  · intro id
    rw [GetTransaction_eq_getFlow, getFlow_eq_execute, transaction_target]
    exact execute_targets c std _ _ _
  · intro type fiat
    rw [GetTransactionHistory_eq_getFlow, getFlow_eq_execute, history_target]
    exact execute_targets c std _ _ _

/-- C8 at the default base URL: a transaction identifier with a slash, a query
and a space is inserted as it is; `CreateTransaction` posts to its route once
the payload is serialized, and builds no request for a payload the example
serializer rejects. -/
theorem targets_are_concatenations_witness :
    Targets ((NewFlincapClient (replyWith 200 transactionBody) "tok").GetTransaction
      exampleStd "../x?y=1 z").trace "GET"
      ((NewFlincapClient (replyWith 200 transactionBody) "tok").BaseURL ++
        "/v1/get-transactions/" ++ "../x?y=1 z") ∧
    Targets ((NewFlincapClient (replyWith 200 transactionBody) "tok").CreateTransaction
      exampleStd (some [("amount", .number "10")])).1 "POST"
      ((NewFlincapClient (replyWith 200 transactionBody) "tok").BaseURL ++
        "/v1/create-transaction") ∧
    targets ((NewFlincapClient (replyWith 200 transactionBody) "tok").CreateTransaction
      exampleStd none).1 = [] :=
  ⟨(targets_are_concatenations (NewFlincapClient (replyWith 200 transactionBody) "tok")
      exampleStd).2.2.2.2.1 "../x?y=1 z",
    (targets_are_concatenations (NewFlincapClient (replyWith 200 transactionBody) "tok")
      exampleStd).2.2.1 (some [("amount", .number "10")]) "\x7b\"amount\":10\x7d" rfl,
    (targets_are_concatenations (NewFlincapClient (replyWith 200 transactionBody) "tok")
      exampleStd).2.2.2.1 none (.lib "json: unsupported type") rfl⟩

/-! ## Query parameters and URL escaping -/

theorem escapeChars_of_unreserved (cs : List Char) (h : ∀ ch ∈ cs, unreserved ch = true) :
    escapeChars cs = cs := by
  induction cs with
  | nil => rfl
  | cons ch cs ih =>
    have h1 : unreserved ch = true := h ch (List.mem_cons_self _ _)
    have h2 : escapeChars cs = cs := ih (fun x hx => h x (List.mem_cons_of_mem _ hx))
    simp [escapeChars, escapeChar, h1, h2]

theorem QueryEscape_of_unreserved (s : String) (h : ∀ ch ∈ s.data, unreserved ch = true) :
    QueryEscape s = s := by
  unfold QueryEscape
  rw [escapeChars_of_unreserved s.data h]

theorem execute_sends (c : FlincapClient) (std : Stdlib) (method target : String)
    (body : Option String) (h1 : std.newRequestErr method target = none) :
    Event.send (outgoing c method target body) ∈
      (executeAndDecode c std method target body).trace := by
  unfold outgoing
  cases h2 : c.HTTPClient.Do
    { Method := method, URL := target, Body := body,
      Header := headerPolicy c.Token http.Header.empty } with
  | error cause => simp [executeAndDecode, h1, h2]
  | ok resp =>
    by_cases h3 : resp.StatusCode = 200
    · rcases h4 : std.decodeMap resp.Body with ⟨d, _ | e⟩ <;>
        simp [executeAndDecode, h1, h2, h3, h4]
    · rcases h4 : std.decodeErrResp resp.Body with ⟨⟨m, code⟩, _ | e⟩ <;>
        simp [executeAndDecode, h1, h2, h3, h4]

theorem Targets_unique (trace : List Event) (method url method2 url2 : String)
    (h1 : Targets trace method url) (h2 : Targets trace method2 url2) :
    method = method2 ∧ url = url2 := by
  have h := h1.1.symm.trans h2.1
  simpa using h

/-- C7 as stated fails: at the default base URL, `GetRate("a&b", "USD")` builds
and sends `GET https://flincap.app/v1/get-rate?selectedCrypt=a&b&selectedFiat=USD`,
with the ampersand of the first parameter unescaped, whereas its URL-escaped
form is `a%26b`. -/
theorem getRate_params_not_escaped :
    QueryEscape "a&b" = "a%26b" ∧
    Targets ((NewFlincapClient (replyWith 200 transactionBody) "tok").GetRate
      exampleStd "a&b" "USD").trace "GET"
      "https://flincap.app/v1/get-rate?selectedCrypt=a&b&selectedFiat=USD" ∧
    Event.send (outgoing (NewFlincapClient (replyWith 200 transactionBody) "tok") "GET"
      "https://flincap.app/v1/get-rate?selectedCrypt=a&b&selectedFiat=USD" none) ∈
      ((NewFlincapClient (replyWith 200 transactionBody) "tok").GetRate
        exampleStd "a&b" "USD").trace ∧
    ¬ Targets ((NewFlincapClient (replyWith 200 transactionBody) "tok").GetRate
      exampleStd "a&b" "USD").trace "GET"
      ("https://flincap.app" ++ "/v1/get-rate?selectedCrypt=" ++ QueryEscape "a&b" ++
        "&selectedFiat=" ++ QueryEscape "USD") := by
  have hT : Targets ((NewFlincapClient (replyWith 200 transactionBody) "tok").GetRate
      exampleStd "a&b" "USD").trace "GET"
      "https://flincap.app/v1/get-rate?selectedCrypt=a&b&selectedFiat=USD" := by
    rw [GetRate_eq_getFlow, getFlow_eq_execute]
    exact execute_targets _ _ _ _ _
  refine ⟨by decide, hT, ?_, fun h => ?_⟩
  · rw [GetRate_eq_getFlow, getFlow_eq_execute]
    exact execute_sends _ _ _ _ _ rfl
  · have h2 := (Targets_unique _ _ _ _ _ hT h).2
    revert h2
    decide

/-- C7, amended: for all `crypt` and `fiat` made only of unreserved characters
(ASCII letters, digits, `-`, `_`, `.`, `~`), every request `GetRate` builds or
sends is a `GET` to the base URL followed by `/v1/get-rate` with the query
parameters `selectedCrypt` and `selectedFiat` equal to their URL-escaped
forms, and the request is sent whenever `http.NewRequest` accepts it. -/
theorem getRate_escaped_on_unreserved (c : FlincapClient) (std : Stdlib)
    (crypt fiat : String) (hc : ∀ ch ∈ crypt.data, unreserved ch = true)
    (hf : ∀ ch ∈ fiat.data, unreserved ch = true) :
    Targets (c.GetRate std crypt fiat).trace "GET"
      (c.BaseURL ++ "/v1/get-rate?selectedCrypt=" ++ QueryEscape crypt ++
        "&selectedFiat=" ++ QueryEscape fiat) ∧
    (std.newRequestErr "GET" (c.BaseURL ++ "/v1/get-rate?selectedCrypt=" ++
        QueryEscape crypt ++ "&selectedFiat=" ++ QueryEscape fiat) = none →
      Event.send (outgoing c "GET" (c.BaseURL ++ "/v1/get-rate?selectedCrypt=" ++
        QueryEscape crypt ++ "&selectedFiat=" ++ QueryEscape fiat) none) ∈
        (c.GetRate std crypt fiat).trace) := by
  rw [QueryEscape_of_unreserved crypt hc, QueryEscape_of_unreserved fiat hf,
    GetRate_eq_getFlow, getFlow_eq_execute, rate_target]
  exact ⟨execute_targets c std _ _ _, fun h1 => execute_sends c std _ _ _ h1⟩

/-- C7, amended, on the pair `BTC` / `USD`: the request goes to
`/v1/get-rate?selectedCrypt=BTC&selectedFiat=USD` at the default base URL. -/
theorem getRate_escaped_on_unreserved_witness :
    Targets ((NewFlincapClient (replyWith 200 transactionBody) "tok").GetRate
      exampleStd "BTC" "USD").trace "GET"
      ((NewFlincapClient (replyWith 200 transactionBody) "tok").BaseURL ++
        "/v1/get-rate?selectedCrypt=" ++ QueryEscape "BTC" ++
        "&selectedFiat=" ++ QueryEscape "USD") ∧
    Event.send (outgoing (NewFlincapClient (replyWith 200 transactionBody) "tok") "GET"
      ((NewFlincapClient (replyWith 200 transactionBody) "tok").BaseURL ++
        "/v1/get-rate?selectedCrypt=" ++ QueryEscape "BTC" ++
        "&selectedFiat=" ++ QueryEscape "USD") none) ∈
      ((NewFlincapClient (replyWith 200 transactionBody) "tok").GetRate
        exampleStd "BTC" "USD").trace :=
  ⟨(getRate_escaped_on_unreserved (NewFlincapClient (replyWith 200 transactionBody) "tok")
      exampleStd "BTC" "USD" (by decide) (by decide)).1,
    (getRate_escaped_on_unreserved (NewFlincapClient (replyWith 200 transactionBody) "tok")
      exampleStd "BTC" "USD" (by decide) (by decide)).2 rfl⟩

/-! ## One primitive behind the five operations -/

theorem create_vs_execute (c : FlincapClient) (std : Stdlib) (data : Option JsonMap)
    (payload : String) (hm : std.jsonMarshal data = .ok payload) :
    ((∃ resp, Received c (executeAndDecode c std "POST"
          (c.BaseURL ++ "/v1/create-transaction") (some payload)).trace resp ∧
        resp.StatusCode = 200) →
      c.CreateTransaction std data =
        ([.newRequest "POST" (c.BaseURL ++ "/v1/create-transaction") (some payload),
          .send (outgoing c "POST" (c.BaseURL ++ "/v1/create-transaction") (some payload))],
          none)) ∧
    ((¬ ∃ resp, Received c (executeAndDecode c std "POST"
          (c.BaseURL ++ "/v1/create-transaction") (some payload)).trace resp ∧
        resp.StatusCode = 200) →
      c.CreateTransaction std data =
        ((executeAndDecode c std "POST"
            (c.BaseURL ++ "/v1/create-transaction") (some payload)).trace,
          (executeAndDecode c std "POST"
            (c.BaseURL ++ "/v1/create-transaction") (some payload)).err) ∧
      (executeAndDecode c std "POST"
        (c.BaseURL ++ "/v1/create-transaction") (some payload)).err ≠ none) := by
  constructor
  · rintro ⟨resp, hr, hs⟩
    obtain ⟨h1, h2⟩ := execute_of_received c std _ _ _ resp hr
    exact create_status_ok c std data payload resp hm h1 h2 hs
  · intro hno
    cases h1 : std.newRequestErr "POST" (c.BaseURL ++ "/v1/create-transaction") with
    | some e =>
      rw [create_construction_failure c std data payload e hm h1]
      simp [executeAndDecode, h1, ConstructionError, Errorf]
    | none =>
      cases h2 : c.HTTPClient.Do
        (outgoing c "POST" (c.BaseURL ++ "/v1/create-transaction") (some payload)) with
      | error e =>
        rw [create_transport_failure c std data payload e hm h1 h2]
        unfold outgoing at h2 ⊢
        simp [executeAndDecode, h1, h2, TransportError, Errorf]
      | ok resp =>
        by_cases hs : resp.StatusCode = 200
        · exact absurd ⟨resp, execute_received_of c std _ _ _ resp h1 h2, hs⟩ hno
        · rw [create_status_not_ok c std data payload resp hm h1 h2 hs]
          unfold outgoing at h2 ⊢
          rcases h4 : std.decodeErrResp resp.Body with ⟨⟨m, code⟩, _ | e⟩ <;>
            simp [executeAndDecode, h1, h2, hs, h4, DecodeError, APIError, Errorf]

/-- C10: `GetRate`, `GetExchange`, `GetTransaction` and `GetTransactionHistory`
are each equal, in the calls they make and in the mapping and error they
return, to the one generic execute-and-decode primitive of the specification
applied to `GET` and their own target URL, for every client, library and
transport behaviour.  `CreateTransaction`, once its payload is serialized,
makes the same calls and returns the same error as the primitive applied to
`POST`, its URL and the payload on every outcome other than a 200 response,
where the primitive does fail; on a 200 response it returns no error and stops
after sending, without decoding the body. -/
theorem operations_refine_primitive (c : FlincapClient) (std : Stdlib) :
    (∀ crypt fiat, c.GetRate std crypt fiat =
      executeAndDecode c std "GET"
        (c.BaseURL ++ "/v1/get-rate?selectedCrypt=" ++ crypt ++ "&selectedFiat=" ++ fiat)
        none) ∧
    (c.GetExchange std = executeAndDecode c std "GET" (c.BaseURL ++ "/v1/get-exchange") none) ∧
    (∀ id, c.GetTransaction std id =
      executeAndDecode c std "GET" (c.BaseURL ++ "/v1/get-transactions/" ++ id) none) ∧
    (∀ type fiat, c.GetTransactionHistory std type fiat =
      executeAndDecode c std "GET"
        (c.BaseURL ++ "/api/v1/get-transactions?transactionType=" ++ type ++
          "&selectedFiat=" ++ fiat) none) ∧
    (∀ data payload, std.jsonMarshal data = .ok payload →
      ((∃ resp, Received c (executeAndDecode c std "POST"
            (c.BaseURL ++ "/v1/create-transaction") (some payload)).trace resp ∧
          resp.StatusCode = 200) →
        c.CreateTransaction std data =
          ([.newRequest "POST" (c.BaseURL ++ "/v1/create-transaction") (some payload),
            .send (outgoing c "POST" (c.BaseURL ++ "/v1/create-transaction")
              (some payload))],
            none)) ∧
      ((¬ ∃ resp, Received c (executeAndDecode c std "POST"
            (c.BaseURL ++ "/v1/create-transaction") (some payload)).trace resp ∧
          resp.StatusCode = 200) →
        c.CreateTransaction std data =
          ((executeAndDecode c std "POST"
              (c.BaseURL ++ "/v1/create-transaction") (some payload)).trace,
            (executeAndDecode c std "POST"
              (c.BaseURL ++ "/v1/create-transaction") (some payload)).err) ∧
        (executeAndDecode c std "POST"
          (c.BaseURL ++ "/v1/create-transaction") (some payload)).err ≠ none)) := by
  refine ⟨?_, ?_, ?_, ?_, ?_⟩
  · intro crypt fiat
    rw [GetRate_eq_getFlow, getFlow_eq_execute, rate_target]
  · rw [GetExchange_eq_getFlow, getFlow_eq_execute]
  · intro id
    rw [GetTransaction_eq_getFlow, getFlow_eq_execute, transaction_target]
  · intro type fiat
    rw [GetTransactionHistory_eq_getFlow, getFlow_eq_execute, history_target]
  · intro data payload hm
    exact create_vs_execute c std data payload hm

/-- C10 for `CreateTransaction` on two transports: on a 200 response with an
HTML body the call returns no error after building and sending its request; on
a refused connection it returns exactly the calls and the error of the
primitive. -/
theorem operations_refine_primitive_witness :
    ((NewFlincapClient (replyWith 200 "<html>") "tok").CreateTransaction exampleStd
        (some [("amount", .number "10")]) =
      ([.newRequest "POST"
          ((NewFlincapClient (replyWith 200 "<html>") "tok").BaseURL ++
            "/v1/create-transaction") (some "\x7b\"amount\":10\x7d"),
        .send (outgoing (NewFlincapClient (replyWith 200 "<html>") "tok") "POST"
          ((NewFlincapClient (replyWith 200 "<html>") "tok").BaseURL ++
            "/v1/create-transaction") (some "\x7b\"amount\":10\x7d"))],
        none)) ∧
    ((NewFlincapClient (failWith (.lib "connection refused")) "tok").CreateTransaction
        exampleStd (some [("amount", .number "10")]) =
      ((executeAndDecode (NewFlincapClient (failWith (.lib "connection refused")) "tok")
          exampleStd "POST"
          ((NewFlincapClient (failWith (.lib "connection refused")) "tok").BaseURL ++
            "/v1/create-transaction") (some "\x7b\"amount\":10\x7d")).trace,
        (executeAndDecode (NewFlincapClient (failWith (.lib "connection refused")) "tok")
          exampleStd "POST"
          ((NewFlincapClient (failWith (.lib "connection refused")) "tok").BaseURL ++
            "/v1/create-transaction") (some "\x7b\"amount\":10\x7d")).err)) :=
  ⟨((operations_refine_primitive (NewFlincapClient (replyWith 200 "<html>") "tok")
      exampleStd).2.2.2.2 (some [("amount", .number "10")]) "\x7b\"amount\":10\x7d" rfl).1
      ⟨{ StatusCode := 200, Body := "<html>" },
        execute_received_of _ _ _ _ _ _ rfl rfl, rfl⟩,
    (((operations_refine_primitive
      (NewFlincapClient (failWith (.lib "connection refused")) "tok")
      exampleStd).2.2.2.2 (some [("amount", .number "10")]) "\x7b\"amount\":10\x7d" rfl).2
      (fun ⟨_, ⟨_, _, hdo⟩, _⟩ => by cases hdo)).1⟩

end Flincap
